import Mathlib

/-!
# dual-arc watch face: state and dial geometry

A shallow embedding of `src/c/main.c` and `src/c/new-watchface.c`.

* C `int` / `int32_t` values are `Int`; where the C arithmetic can leave the
  32-bit range the result is wrapped with `wrap32` (two's complement).
* C `/` and `%` round toward zero: `Int.tdiv` and `Int.tmod`.
* A division whose divisor is a run-time value returns `Option`: `none` is the
  division by zero that C leaves undefined.
* The static variables of each program are the fields of its `State`;
  the persistent key-value store is part of the state.
* The drawing backend is a command list: every `graphics_*` call of
  `canvas_update_proc` is one `GCmd`, in program order.
* A `char` buffer is the list of its bytes (`Nat`, the terminating NUL and
  the bytes after it included); the text it holds is `cstr`, the bytes before
  the first NUL.  The time, meridiem and date buffers are part of the state.
* The `snprintf` into the battery and step buffers and layer invalidation
  (`text_layer_set_text`, `layer_mark_dirty`) do not touch the variables
  modelled here and are left out.
-/

namespace DualArc

/-! ## C integer arithmetic -/

/-- Two's complement reduction of an integer to the range of `int32_t`. -/
def wrap32 (x : Int) : Int := (x + 2147483648) % 4294967296 - 2147483648

/-- Two's complement reduction of an integer to the range of `int16_t`. -/
def wrap16 (x : Int) : Int := (x + 32768) % 65536 - 32768

/-- C `a * b` on `int`, overflow as wrap-around. -/
def cmul (a b : Int) : Int := wrap32 (a * b)

/-- C `a + b` on `int`, overflow as wrap-around. -/
def cadd (a b : Int) : Int := wrap32 (a + b)

/-- C `a - b` on `int`, overflow as wrap-around. -/
def csub (a b : Int) : Int := wrap32 (a - b)

/-- C `a / k` on `int` for a divisor that is a non-zero literal other than `-1`:
truncation toward zero, never out of range. -/
def cdivk (a k : Int) : Int := Int.tdiv a k

/-- C `a / b` on `int` for a run-time divisor: undefined (`none`) when `b` is
zero, otherwise the quotient truncated toward zero (wrapped, for
`INT_MIN / -1`). -/
def cdiv (a b : Int) : Option Int :=
  if b = 0 then none else some (wrap32 (Int.tdiv a b))

/-! ## Persistent storage -/

/-- Modelled from the spec: the generated `MESSAGE_KEY_*` constants are absent
from src; section 6 lists the keys `use24h`, `backgroundColor`,
`foregroundColor`, `secondaryColor` and `stepGoal`.  `STORAGE_MAX_STEPS` is the
key 20000 defined in `new-watchface.c`. -/
inductive PersistKey where
  | MESSAGE_KEY_USE_24_HOUR
  | MESSAGE_KEY_BACKGROUND_COLOR
  | MESSAGE_KEY_FOREGROUND_COLOR
  | MESSAGE_KEY_SECONDARY_COLOR
  | MESSAGE_KEY_STEP_GOAL
  | STORAGE_MAX_STEPS
  deriving DecidableEq, Repr

/-- A stored value: written by `persist_write_int` or `persist_write_bool`. -/
inductive PersistValue where
  | int (v : Int)
  | bool (b : Bool)
  deriving DecidableEq, Repr

/-- The persistent key-value store. -/
abbrev Storage := PersistKey → Option PersistValue

/-- Modelled from the spec: `exists(key) -> bool` of the key-value store. -/
def persist_exists (st : Storage) (k : PersistKey) : Bool := (st k).isSome

/-- Modelled from the spec: `readInt(key)`; 0 when no integer is stored. -/
def persist_read_int (st : Storage) (k : PersistKey) : Int :=
  match st k with
  | some (PersistValue.int v) => v
  | _ => 0

/-- Modelled from the spec: `readBool(key)`; false when no flag is stored. -/
def persist_read_bool (st : Storage) (k : PersistKey) : Bool :=
  match st k with
  | some (PersistValue.bool b) => b
  | _ => false

/-- Modelled from the spec: `writeInt(key, value)`. -/
def persist_write_int (st : Storage) (k : PersistKey) (v : Int) : Storage :=
  fun k2 => if k2 = k then some (PersistValue.int v) else st k2

/-- Modelled from the spec: `writeBool(key, value)`. -/
def persist_write_bool (st : Storage) (k : PersistKey) (b : Bool) : Storage :=
  fun k2 => if k2 = k then some (PersistValue.bool b) else st k2

/-- The store of a fresh installation. -/
def emptyStorage : Storage := fun _ => none

/-! ## Colours and geometry types -/

/-- The type `GColor`: one byte `argb`. -/
structure GColor where
  argb : Int
  deriving DecidableEq, Repr

/-- The type `GPoint`: `int16_t` coordinates. -/
structure GPoint where
  x : Int
  y : Int
  deriving DecidableEq, Repr

/-- The type `GRect`: origin and size, `int16_t` each. -/
structure GRect where
  x : Int
  y : Int
  w : Int
  h : Int
  deriving DecidableEq, Repr

/-- The host SDK (`pebble.h`, absent from src), taken as a parameter:
trigonometric lookup tables, rectangle centre, colour conversion, colour
constants and the two display-shape capabilities. -/
structure Sdk where
  sin_lookup : Int → Int
  cos_lookup : Int → Int
  grect_center_point : GRect → GPoint
  GColorFromHEX : Int → GColor
  GColorBlack : GColor
  GColorWhite : GColor
  GColorLightGray : GColor
  GColorDarkGray : GColor
  pbl_round : Bool
  pbl_emery : Bool

/-- Modelled from the spec: `TRIG_MAX_ANGLE` of the SDK, the full circle,
65536. -/
def TRIG_MAX_ANGLE : Int := 65536

/-- Modelled from the spec: `TRIG_MAX_RATIO` of the SDK, the scale of the
lookup tables, 65535. -/
def TRIG_MAX_RATIO : Int := 65535

/-- Modelled from the spec: the SDK macro `DEG_TO_TRIGANGLE(angle)`,
`angle * TRIG_MAX_ANGLE / 360`. -/
def DEG_TO_TRIGANGLE (angle : Int) : Int := cdivk (cmul angle TRIG_MAX_ANGLE) 360

/-- One call into the drawing backend. -/
inductive GCmd where
  | set_stroke_color (c : GColor)
  | set_stroke_width (w : Int)
  | set_fill_color (c : GColor)
  | draw_line (p0 p1 : GPoint)
  | draw_arc (rect : GRect) (angle_start angle_end : Int)
  | fill_circle (p : GPoint) (radius : Int)
  deriving DecidableEq, Repr

/-! ## Expressions shared by both variants of `canvas_update_proc`

The two files compute the dial geometry with the same text; the named pieces
below are those sub-expressions. -/

/-- Source text `int radius = (bounds.size.w < bounds.size.h ? bounds.size.w : bounds.size.h) / 2 - 8;` -/
def dial_radius (bounds : GRect) : Int :=
  csub (cdivk (if bounds.w < bounds.h then bounds.w else bounds.h) 2) 8

/-- The initialiser of a tick end point,
`{ .x = center.x + (r * sin_lookup(angle) / TRIG_MAX_RATIO),
   .y = center.y - (r * cos_lookup(angle) / TRIG_MAX_RATIO) }`,
stored into `int16_t` fields. -/
def tick_point (sdk : Sdk) (center : GPoint) (r angle : Int) : GPoint :=
  { x := wrap16 (cadd center.x (cdivk (cmul r (sdk.sin_lookup angle)) TRIG_MAX_RATIO)),
    y := wrap16 (csub center.y (cdivk (cmul r (sdk.cos_lookup angle)) TRIG_MAX_RATIO)) }

/-- The body of the tick-mark loop for the loop variable `i`. -/
def tick_body (sdk : Sdk) (center : GPoint) (radius i : Int) : List GCmd :=
  let angle := cdivk (cmul TRIG_MAX_ANGLE i) 60
  let inner_r := if Int.tmod i 5 = 0 then csub radius 6 else csub radius 3
  let outer_r := radius
  let inner := tick_point sdk center inner_r angle
  let outer := tick_point sdk center outer_r angle
  [GCmd.draw_line inner outer]

/-- Source text `int arc_width = PBL_IF_ROUND_ELSE(14, 8);
if (PBL_PLATFORM_TYPE_CURRENT == PlatformTypeEmery) arc_width = 14;` -/
def arc_width (sdk : Sdk) : Int :=
  let w := if sdk.pbl_round then 14 else 8
  if sdk.pbl_emery then 14 else w

/-- Source text `left_arc_start = DEG_TO_TRIGANGLE(200)`. -/
def left_arc_start : Int := DEG_TO_TRIGANGLE 200

/-- Source text `left_arc_end = DEG_TO_TRIGANGLE(250)`. -/
def left_arc_end : Int := DEG_TO_TRIGANGLE 250

/-- Source text `right_arc_start = DEG_TO_TRIGANGLE(110)`. -/
def right_arc_start : Int := DEG_TO_TRIGANGLE 110

/-- Source text `right_arc_end = DEG_TO_TRIGANGLE(160)`. -/
def right_arc_end : Int := DEG_TO_TRIGANGLE 160

/-- Source text `GRect(center.x - arc_radius, center.y - arc_radius, arc_radius * 2, arc_radius * 2)`. -/
def arc_rect (center : GPoint) (arc_radius : Int) : GRect :=
  { x := wrap16 (csub center.x arc_radius),
    y := wrap16 (csub center.y arc_radius),
    w := wrap16 (cmul arc_radius 2),
    h := wrap16 (cmul arc_radius 2) }

/-- Source text `arc_range = left_arc_end - left_arc_start;
fill_end = left_arc_start + (arc_range * s_battery_level / 100);` -/
def battery_fill_end (s_battery_level : Int) : Int :=
  let arc_range := csub left_arc_end left_arc_start
  cadd left_arc_start (cdivk (cmul arc_range s_battery_level) 100)

/-- Source text `int steps_percent = (s_current_steps * 100) / s_max_steps;
if (steps_percent > 100) steps_percent = 100;` -/
def steps_percent (s_current_steps s_max_steps : Int) : Option Int :=
  match cdiv (cmul s_current_steps 100) s_max_steps with
  | none => none
  | some p => some (if p > 100 then 100 else p)

/-- Source text `arc_range = right_arc_end - right_arc_start;
fill_start = right_arc_end - (arc_range * steps_percent / 100);` -/
def steps_fill_start (percent : Int) : Int :=
  let arc_range := csub right_arc_end right_arc_start
  csub right_arc_end (cdivk (cmul arc_range percent) 100)

/-- The three dots: `for (int i = 0; i < 3; i++)
graphics_fill_circle(ctx, GPoint(center.x - 4 + i * 4, center.y + 52), 1);` -/
def center_dots (sdk : Sdk) (center : GPoint) : List GCmd :=
  GCmd.set_fill_color sdk.GColorDarkGray ::
    (List.range 3).map (fun (i : Nat) =>
      GCmd.fill_circle
        { x := wrap16 (cadd (csub center.x 4) (cmul (i : Int) 4)),
          y := wrap16 (cadd center.y 52) } 1)

/-- A configuration push: the value of each key the dictionary contains. -/
abbrev Dictionary := PersistKey → Option Int

/-! ## Text buffers and `strftime` -/

/-- A `char` array: its bytes, the terminator and the bytes after it
included. -/
abbrev CBuf := List Nat

/-- The C string held by a buffer: the bytes before the first NUL. -/
def cstr (buf : CBuf) : List Nat := buf.takeWhile (fun b => b ≠ 0)

/-- Modelled from the spec: `strlen` of libc, the length of the string held by
the buffer. -/
def strlen (buf : CBuf) : Nat := (cstr buf).length

/-- The bytes of a string literal, without terminator. -/
def bytes (s : String) : List Nat := s.toList.map Char.toNat

/-- Modelled from the spec: `memmove(buf, buf + 1, n)` of libc, the `n` bytes
from index 1 copied to index 0 (the drop of the first character); the bytes
from index `n` on keep their value. -/
def memmove_tail (buf : CBuf) (n : Nat) : CBuf := (buf.drop 1).take n ++ buf.drop n

/-- The fields of the broken-down time `struct tm` that the formats read. -/
structure Tm where
  tm_min : Nat
  tm_hour : Nat
  tm_mday : Nat
  tm_wday : Nat
  deriving DecidableEq, Repr

/-- The items of the `strftime` formats of the source: the conversions `%H`,
`%I`, `%M`, `%p`, `%d`, `%a` and a literal character. -/
inductive Conv where
  | H
  | I
  | M
  | p
  | d
  | a
  | lit (c : Nat)
  deriving DecidableEq, Repr

/-- The two-digit zero-padded decimal numeral of a number below 100. -/
def two_digits (n : Nat) : List Nat := [48 + n / 10 % 10, 48 + n % 10]

/-- Modelled from the spec: the text of one `strftime` conversion (libc is
absent from src): `%H` and `%I` the zero-padded 24-hour and 12-hour numeral,
`%M` and `%d` zero-padded minute and day of month, `%p` "AM" before noon and
"PM" from noon, `%a` the weekday abbreviation of the locale, `abday`. -/
def conv_text (abday : Nat → List Nat) (tm : Tm) : Conv → List Nat
  | Conv.H => two_digits tm.tm_hour
  | Conv.I => two_digits (if tm.tm_hour % 12 = 0 then 12 else tm.tm_hour % 12)
  | Conv.M => two_digits tm.tm_min
  | Conv.p => if tm.tm_hour < 12 then [65, 77] else [80, 77]
  | Conv.d => two_digits tm.tm_mday
  | Conv.a => abday tm.tm_wday
  | Conv.lit c => [c]

/-- The text of a whole format. -/
def format_text (abday : Nat → List Nat) (tm : Tm) : List Conv → List Nat
  | [] => []
  | c :: cs => conv_text abday tm c ++ format_text abday tm cs

/-- Modelled from the spec: `strftime(buf, maxsize, format, tm)` of libc: the
formatted text and its terminator are stored at the start of the buffer when
they fit in `maxsize` bytes, the bytes after them keep their value; when they
do not fit the buffer is taken as unchanged (C leaves its contents
unspecified). -/
def strftime (abday : Nat → List Nat) (buf : CBuf) (maxsize : Nat) (format : List Conv)
    (tm : Tm) : CBuf :=
  if (format_text abday tm format).length + 1 ≤ maxsize then
    format_text abday tm format ++ 0 :: buf.drop ((format_text abday tm format).length + 1)
  else buf

/-- The weekday loop of `update_time`, the same text in both files, entered
with the loop variable at `i`:
`for (int i = 3; i < 6 && s_date_buffer[i]; i++)
   if (s_date_buffer[i] >= 'a' && s_date_buffer[i] <= 'z') s_date_buffer[i] -= 32;` -/
def upcase_weekday (buf : CBuf) (i : Nat) : CBuf :=
  if i < 6 ∧ buf.getD i 0 ≠ 0 then
    upcase_weekday
      (if 97 ≤ buf.getD i 0 ∧ buf.getD i 0 ≤ 122 then buf.set i (buf.getD i 0 - 32) else buf)
      (i + 1)
  else buf
termination_by 6 - i
decreasing_by omega

/-! ## `main.c` -/

namespace Main

/-- The static variables of `main.c` and the persistent store. -/
structure State where
  s_battery_level : Int
  s_current_steps : Int
  s_max_steps : Int
  s_background_color : GColor
  s_foreground_color : GColor
  s_secondary_color : GColor
  s_use_24h : Bool
  s_color_pink : GColor
  s_color_yellow : GColor
  s_color_background_yellow : GColor
  s_color_background_pink : GColor
  storage : Storage
  s_hour_buffer : CBuf
  s_minute_buffer : CBuf
  s_ampm_buffer : CBuf
  s_date_buffer : CBuf

/-- The variables as initialised at program start, over a given store. -/
def initial (st : Storage) : State :=
  { s_battery_level := 0, s_current_steps := 0, s_max_steps := 10000,
    s_background_color := ⟨0⟩, s_foreground_color := ⟨0⟩, s_secondary_color := ⟨0⟩,
    s_use_24h := true,
    s_color_pink := ⟨0⟩, s_color_yellow := ⟨0⟩,
    s_color_background_yellow := ⟨0⟩, s_color_background_pink := ⟨0⟩,
    storage := st,
    s_hour_buffer := List.replicate 4 0, s_minute_buffer := List.replicate 4 0,
    s_ampm_buffer := List.replicate 4 0, s_date_buffer := List.replicate 16 0 }

open PersistKey in
/-- Embeds `load_settings` (main.c 47-54). -/
def load_settings (sdk : Sdk) (s : State) : State :=
  { s with
    s_use_24h :=
      if persist_exists s.storage MESSAGE_KEY_USE_24_HOUR
      then persist_read_bool s.storage MESSAGE_KEY_USE_24_HOUR else true
    s_background_color :=
      if persist_exists s.storage MESSAGE_KEY_BACKGROUND_COLOR
      then ⟨persist_read_int s.storage MESSAGE_KEY_BACKGROUND_COLOR % 256⟩
      else sdk.GColorBlack
    s_foreground_color :=
      if persist_exists s.storage MESSAGE_KEY_FOREGROUND_COLOR
      then ⟨persist_read_int s.storage MESSAGE_KEY_FOREGROUND_COLOR % 256⟩
      else sdk.GColorWhite
    s_secondary_color :=
      if persist_exists s.storage MESSAGE_KEY_SECONDARY_COLOR
      then ⟨persist_read_int s.storage MESSAGE_KEY_SECONDARY_COLOR % 256⟩
      else sdk.GColorLightGray
    s_max_steps :=
      if persist_exists s.storage MESSAGE_KEY_STEP_GOAL
      then persist_read_int s.storage MESSAGE_KEY_STEP_GOAL else 10000 }

open PersistKey in
/-- Embeds `save_settings` (main.c 57-64): five writes, in program order. -/
def save_settings (s : State) : State :=
  let st1 := persist_write_bool s.storage MESSAGE_KEY_USE_24_HOUR s.s_use_24h
  let st2 := persist_write_int st1 MESSAGE_KEY_BACKGROUND_COLOR s.s_background_color.argb
  let st3 := persist_write_int st2 MESSAGE_KEY_FOREGROUND_COLOR s.s_foreground_color.argb
  let st4 := persist_write_int st3 MESSAGE_KEY_SECONDARY_COLOR s.s_secondary_color.argb
  let st5 := persist_write_int st4 MESSAGE_KEY_STEP_GOAL s.s_max_steps
  { s with storage := st5 }

open PersistKey in
/-- Embeds `inbox_received_callback` (main.c 67-94); `dict_find` is the lookup in the
pushed dictionary.  `update_display` only invalidates the layer and recolours
the window. -/
def inbox_received_callback (sdk : Sdk) (iterator : Dictionary) (s : State) : State :=
  let s1 := match iterator MESSAGE_KEY_USE_24_HOUR with
    | some v => { s with s_use_24h := decide (v = 1) }
    | none => s
  let s2 := match iterator MESSAGE_KEY_BACKGROUND_COLOR with
    | some v => { s1 with s_background_color := sdk.GColorFromHEX v }
    | none => s1
  let s3 := match iterator MESSAGE_KEY_FOREGROUND_COLOR with
    | some v => { s2 with s_foreground_color := sdk.GColorFromHEX v }
    | none => s2
  let s4 := match iterator MESSAGE_KEY_SECONDARY_COLOR with
    | some v => { s3 with s_secondary_color := sdk.GColorFromHEX v }
    | none => s3
  save_settings s4

/-- Embeds `battery_callback` (main.c 102-109); `charge_percent` is a `uint8_t`. -/
def battery_callback (charge_percent : Int) (s : State) : State :=
  { s with s_battery_level := charge_percent }

/-- Embeds `update_steps` (main.c 112-125); `sum_today` is the value returned by
`health_service_sum_today(HealthMetricStepCount)`, converted to `int`. -/
def update_steps (s : State) (sum_today : Int) : State :=
  let s1 := { s with s_current_steps := sum_today }
  if s1.s_current_steps > s1.s_max_steps then
    { s1 with s_max_steps := s1.s_current_steps }
  else s1

/-- Embeds `update_time` (main.c 135-176); `tick_time` is the result of
`localtime(&temp)` for the current time. -/
def update_time (abday : Nat → List Nat) (tick_time : Tm) (s : State) : State :=
  let hour0 :=
    strftime abday s.s_hour_buffer 4 (if s.s_use_24h then [Conv.H] else [Conv.I]) tick_time
  let hour1 :=
    if s.s_use_24h = false ∧ hour0.getD 0 0 = 48 then memmove_tail hour0 (strlen hour0)
    else hour0
  let minute := strftime abday s.s_minute_buffer 4 [Conv.M] tick_time
  let ampm :=
    if s.s_use_24h = false then strftime abday s.s_ampm_buffer 4 [Conv.p] tick_time
    else s.s_ampm_buffer
  let date0 := strftime abday s.s_date_buffer 16 [Conv.d, Conv.lit 32, Conv.a] tick_time
  let date1 := upcase_weekday date0 3
  { s with
    s_hour_buffer := hour1, s_minute_buffer := minute,
    s_ampm_buffer := ampm, s_date_buffer := date1 }

/-- The tick-mark loop `for (int i = -15; i <= 15; i++)` (main.c 194-214),
entered with the loop variable at `i`. -/
def tick_loop (sdk : Sdk) (center : GPoint) (radius : Int) (i : Int) : List GCmd :=
  if i ≤ 15 then
    tick_body sdk center radius i ++ tick_loop sdk center radius (i + 1)
  else []
termination_by (16 - i).toNat
decreasing_by omega

/-- Embeds `canvas_update_proc` (main.c 184-270): the drawing commands issued for
the layer bounds `bounds`, or `none` when the step percentage divides by
zero. -/
def canvas_update_proc (sdk : Sdk) (bounds : GRect) (s : State) : Option (List GCmd) :=
  let center := sdk.grect_center_point bounds
  let radius := dial_radius bounds
  let ticks :=
    [GCmd.set_stroke_color sdk.GColorDarkGray, GCmd.set_stroke_width 1] ++
      tick_loop sdk center radius (-15)
  let arc_radius := csub radius 4
  let arc_width := arc_width sdk
  let arc_rect := arc_rect center arc_radius
  let left_bg :=
    [GCmd.set_stroke_color s.s_color_background_yellow, GCmd.set_stroke_width arc_width,
     GCmd.draw_arc arc_rect left_arc_start left_arc_end]
  let left_fill :=
    if s.s_battery_level > 0 then
      [GCmd.set_stroke_color s.s_color_yellow, GCmd.set_stroke_width (csub arc_width 2),
       GCmd.draw_arc arc_rect left_arc_start (battery_fill_end s.s_battery_level)]
    else []
  let right_bg :=
    [GCmd.set_stroke_color s.s_color_background_pink, GCmd.set_stroke_width arc_width,
     GCmd.draw_arc arc_rect right_arc_start right_arc_end]
  match steps_percent s.s_current_steps s.s_max_steps with
  | none => none
  | some percent =>
    let right_fill :=
      if percent > 0 then
        [GCmd.set_stroke_color s.s_color_pink, GCmd.set_stroke_width (csub arc_width 2),
         GCmd.draw_arc arc_rect (steps_fill_start percent) right_arc_end]
      else []
    some (ticks ++ left_bg ++ left_fill ++ right_bg ++ right_fill ++ center_dots sdk center)

/-- The four event sources of `main.c`: minute tick (`tick_handler`), battery
notification (`battery_callback`), step notification (`health_handler`) and
configuration push (`inbox_received_callback`). -/
inductive Event where
  | tick (tick_time : Tm)
  | battery (charge_percent : Int)
  | steps (sum_today : Int)
  | push (iterator : Dictionary)

/-- The handler run for an event. -/
def handle (sdk : Sdk) (abday : Nat → List Nat) (s : State) : Event → State
  | Event.tick tick_time => update_time abday tick_time s
  | Event.battery charge_percent => battery_callback charge_percent s
  | Event.steps sum_today => update_steps s sum_today
  | Event.push iterator => inbox_received_callback sdk iterator s

/-- The state after the events of a list, handled in order. -/
def dispatch (sdk : Sdk) (abday : Nat → List Nat) (s : State) (events : List Event) : State :=
  events.foldl (handle sdk abday) s

end Main

/-! ## `new-watchface.c` -/

namespace NewWatchface

/-- The static variables of `new-watchface.c` and the persistent store. -/
structure State where
  s_battery_level : Int
  s_current_steps : Int
  s_max_steps : Int
  s_color_pink : GColor
  s_color_yellow : GColor
  s_color_background_yellow : GColor
  s_color_background_pink : GColor
  storage : Storage
  s_time_buffer : CBuf
  s_ampm_buffer : CBuf
  s_date_buffer : CBuf

/-- The variables as initialised at program start, over a given store. -/
def initial (st : Storage) : State :=
  { s_battery_level := 0, s_current_steps := 0, s_max_steps := 10000,
    s_color_pink := ⟨0⟩, s_color_yellow := ⟨0⟩,
    s_color_background_yellow := ⟨0⟩, s_color_background_pink := ⟨0⟩,
    storage := st,
    s_time_buffer := List.replicate 8 0, s_ampm_buffer := List.replicate 4 0,
    s_date_buffer := List.replicate 16 0 }

open PersistKey in
/-- Embeds `load_max_steps` (new-watchface.c 38-45). -/
def load_max_steps (s : State) : State :=
  let s1 :=
    if persist_exists s.storage STORAGE_MAX_STEPS then
      { s with s_max_steps := persist_read_int s.storage STORAGE_MAX_STEPS }
    else s
  if s1.s_max_steps < 1000 then { s1 with s_max_steps := 10000 } else s1

open PersistKey in
/-- Embeds `save_max_steps` (new-watchface.c 48-50). -/
def save_max_steps (s : State) : State :=
  { s with storage := persist_write_int s.storage STORAGE_MAX_STEPS s.s_max_steps }

/-- Embeds `battery_callback` (new-watchface.c 53-62). -/
def battery_callback (charge_percent : Int) (s : State) : State :=
  { s with s_battery_level := charge_percent }

/-- Embeds `update_steps` (new-watchface.c 65-81). -/
def update_steps (s : State) (sum_today : Int) : State :=
  let s1 := { s with s_current_steps := sum_today }
  if s1.s_current_steps > s1.s_max_steps then
    save_max_steps { s1 with s_max_steps := s1.s_current_steps }
  else s1

/-- Embeds `update_time` (new-watchface.c 91-122); `tick_time` is the result
of `localtime(&temp)` and `clock_24h` the value of `clock_is_24h_style()`
during the call. -/
def update_time (abday : Nat → List Nat) (clock_24h : Bool) (tick_time : Tm) (s : State) :
    State :=
  let time :=
    strftime abday s.s_time_buffer 8
      (if clock_24h then [Conv.H, Conv.lit 58, Conv.M] else [Conv.I, Conv.lit 58, Conv.M])
      tick_time
  let ampm :=
    if clock_24h = false then strftime abday s.s_ampm_buffer 4 [Conv.p] tick_time
    else s.s_ampm_buffer
  let date0 := strftime abday s.s_date_buffer 16 [Conv.d, Conv.lit 32, Conv.a] tick_time
  let date1 := upcase_weekday date0 3
  { s with s_time_buffer := time, s_ampm_buffer := ampm, s_date_buffer := date1 }

/-- The tick-mark loop `for (int i = -15; i < 15; i++)`
(new-watchface.c 143-163), entered with the loop variable at `i`. -/
def tick_loop (sdk : Sdk) (center : GPoint) (radius : Int) (i : Int) : List GCmd :=
  if i < 15 then
    tick_body sdk center radius i ++ tick_loop sdk center radius (i + 1)
  else []
termination_by (15 - i).toNat
decreasing_by omega

/-- Embeds `canvas_update_proc` (new-watchface.c 133-219): the drawing commands
issued for the layer bounds `bounds`, or `none` when the step percentage
divides by zero. -/
def canvas_update_proc (sdk : Sdk) (bounds : GRect) (s : State) : Option (List GCmd) :=
  let center := sdk.grect_center_point bounds
  let radius := dial_radius bounds
  let ticks :=
    [GCmd.set_stroke_color sdk.GColorDarkGray, GCmd.set_stroke_width 1] ++
      tick_loop sdk center radius (-15)
  let arc_radius := csub radius 4
  let arc_width := arc_width sdk
  let arc_rect := arc_rect center arc_radius
  let left_bg :=
    [GCmd.set_stroke_color s.s_color_background_yellow, GCmd.set_stroke_width arc_width,
     GCmd.draw_arc arc_rect left_arc_start left_arc_end]
  let left_fill :=
    if s.s_battery_level > 0 then
      [GCmd.set_stroke_color s.s_color_yellow, GCmd.set_stroke_width arc_width,
       GCmd.draw_arc arc_rect left_arc_start (battery_fill_end s.s_battery_level)]
    else []
  let right_bg :=
    [GCmd.set_stroke_color s.s_color_background_pink, GCmd.set_stroke_width arc_width,
     GCmd.draw_arc arc_rect right_arc_start right_arc_end]
  match steps_percent s.s_current_steps s.s_max_steps with
  | none => none
  | some percent =>
    let right_fill :=
      if percent > 0 then
        [GCmd.set_stroke_color s.s_color_pink, GCmd.set_stroke_width arc_width,
         GCmd.draw_arc arc_rect (steps_fill_start percent) right_arc_end]
      else []
    some (ticks ++ left_bg ++ left_fill ++ right_bg ++ right_fill ++ center_dots sdk center)

end NewWatchface

/-! ## Observations used to state the properties -/

/-- The states after each call of a handler `step` applied to the successive
inputs `xs`, starting from `s`. -/
def runs {σ α : Type} (step : σ → α → σ) : σ → List α → List σ
  | _, [] => []
  | s, x :: xs => step s x :: runs step (step s x) xs

/-- The end points of the lines drawn, in drawing order. -/
def linesOf : List GCmd → List (GPoint × GPoint)
  | [] => []
  | GCmd.draw_line p0 p1 :: cs => (p0, p1) :: linesOf cs
  | _ :: cs => linesOf cs

/-- The angle ranges `(start, end)` of the arcs drawn, in drawing order. -/
def arcsOf : List GCmd → List (Int × Int)
  | [] => []
  | GCmd.draw_arc _ a b :: cs => (a, b) :: arcsOf cs
  | _ :: cs => arcsOf cs

/-- The tick segment the source draws for the tick index `i` on a dial of
radius `radius`: from inner radius `radius - 6` (multiples of 5) or
`radius - 3` to outer radius `radius`, at angle `TRIG_MAX_ANGLE * i / 60`. -/
def tickSegment (sdk : Sdk) (center : GPoint) (radius i : Int) : GPoint × GPoint :=
  (tick_point sdk center (if 5 ∣ i then radius - 6 else radius - 3) (Int.tdiv (65536 * i) 60),
   tick_point sdk center radius (Int.tdiv (65536 * i) 60))

/-- A concrete SDK instance for closed examples: the trigonometric tables
are replaced by constants, colours by the `argb` bytes of the SDK. -/
def sampleSdk : Sdk :=
  { sin_lookup := fun _ => 0,
    cos_lookup := fun _ => 65535,
    grect_center_point := fun r => ⟨r.x + Int.tdiv r.w 2, r.y + Int.tdiv r.h 2⟩,
    GColorFromHEX := fun v => ⟨192 + 16 * (v / 4194304 % 4) + 4 * (v / 16384 % 4) + v / 64 % 4⟩,
    GColorBlack := ⟨192⟩, GColorWhite := ⟨255⟩, GColorLightGray := ⟨234⟩,
    GColorDarkGray := ⟨213⟩,
    pbl_round := false, pbl_emery := false }

/-! ## Concrete inputs of the closed examples -/

/-- A store in which only the step-goal key of `main.c` is set, to `v`. -/
def goalStorage (v : Int) : Storage :=
  persist_write_int emptyStorage PersistKey.MESSAGE_KEY_STEP_GOAL v

/-- A store in which only the step-goal key of `new-watchface.c` is set. -/
def maxStepsStorage (v : Int) : Storage :=
  persist_write_int emptyStorage PersistKey.STORAGE_MAX_STEPS v

/-- The bounds of a 144 x 168 layer. -/
def sampleBounds : GRect := { x := 0, y := 0, w := 144, h := 168 }

/-- A configuration push that contains the 24h flag only, with value `v`. -/
def flagOnly (v : Int) : Dictionary :=
  fun k => if k = PersistKey.MESSAGE_KEY_USE_24_HOUR then some v else none

/-- State of `main.c` after a battery notification of 45 % and a reading of
5000 steps, from a fresh start. -/
def sampleMain : Main.State :=
  Main.update_steps (Main.battery_callback 45 (Main.initial emptyStorage)) 5000

/-- State of `new-watchface.c` after a battery notification of 45 % and a
reading of 5000 steps, from a fresh start. -/
def sampleNew : NewWatchface.State :=
  NewWatchface.update_steps
    (NewWatchface.battery_callback 45 (NewWatchface.initial emptyStorage)) 5000

/-- The weekday abbreviations of the C locale, "Sun" to "Sat". -/
def sampleAbday (wday : Nat) : List Nat :=
  bytes ((["Sun", "Mon", "Tue", "Wed", "Thu", "Fri", "Sat"].getD wday "Sun"))

/-- Friday the 30th, 01:05. -/
def tm0105 : Tm := { tm_min := 5, tm_hour := 1, tm_mday := 30, tm_wday := 5 }

/-- Friday the 30th, 09:05. -/
def tm0905 : Tm := { tm_min := 5, tm_hour := 9, tm_mday := 30, tm_wday := 5 }

/-- Friday the 30th, 13:05. -/
def tm1305 : Tm := { tm_min := 5, tm_hour := 13, tm_mday := 30, tm_wday := 5 }

/-- State of `main.c` after a configuration push that turns the 24h flag off,
from a fresh start. -/
def sampleMain12h : Main.State :=
  Main.inbox_received_callback sampleSdk (flagOnly 0) (Main.initial emptyStorage)

/-- The upper-case form of a byte read as a character. -/
def upperByte (b : Nat) : Nat := (Char.ofNat b).toUpper.toNat

/-- An ASCII letter, of either case. -/
def asciiLetter (b : Nat) : Prop := (65 ≤ b ∧ b ≤ 90) ∨ (97 ≤ b ∧ b ≤ 122)

/-! ## Step goal: `update_steps` -/

theorem wrap32_of_range (x : Int) (h0 : -2147483648 ≤ x) (h1 : x ≤ 2147483647) :
    wrap32 x = x := by
  unfold wrap32
  omega

theorem wrap32_range (x : Int) : -2147483648 ≤ wrap32 x ∧ wrap32 x ≤ 2147483647 := by
  unfold wrap32
  omega

theorem main_update_steps_fields (s : Main.State) (r : Int) :
    (Main.update_steps s r).s_current_steps = r ∧
    (Main.update_steps s r).s_max_steps = max s.s_max_steps r := by
  unfold Main.update_steps
  dsimp only
  split_ifs with h
  · exact ⟨rfl, (max_eq_right (le_of_lt h)).symm⟩
  · exact ⟨rfl, (max_eq_left (not_lt.mp h)).symm⟩

theorem new_update_steps_fields (s : NewWatchface.State) (r : Int) :
    (NewWatchface.update_steps s r).s_current_steps = r ∧
    (NewWatchface.update_steps s r).s_max_steps = max s.s_max_steps r := by
  unfold NewWatchface.update_steps NewWatchface.save_max_steps
  dsimp only
  split_ifs with h
  · exact ⟨rfl, (max_eq_right (le_of_lt h)).symm⟩
  · exact ⟨rfl, (max_eq_left (not_lt.mp h)).symm⟩

theorem main_runs_invariant (readings : List Int) : ∀ s : Main.State,
    (∀ t ∈ runs Main.update_steps s readings, t.s_current_steps ≤ t.s_max_steps) ∧
    List.Chain (fun a b => a.s_max_steps ≤ b.s_max_steps) s
      (runs Main.update_steps s readings) := by
  induction readings with
  | nil => intro s; simp [runs]
  | cons r rs ih =>
    intro s
    have hf := main_update_steps_fields s r
    have hrec := ih (Main.update_steps s r)
    refine ⟨?_, ?_⟩
    · intro t ht
      simp only [runs, List.mem_cons] at ht
      rcases ht with rfl | ht
      · rw [hf.1, hf.2]; exact le_max_right _ _
      · exact hrec.1 t ht
    · simp only [runs, List.chain_cons]
      exact ⟨by rw [hf.2]; exact le_max_left _ _, hrec.2⟩

theorem new_runs_invariant (readings : List Int) : ∀ s : NewWatchface.State,
    (∀ t ∈ runs NewWatchface.update_steps s readings, t.s_current_steps ≤ t.s_max_steps) ∧
    List.Chain (fun a b => a.s_max_steps ≤ b.s_max_steps) s
      (runs NewWatchface.update_steps s readings) := by
  induction readings with
  | nil => intro s; simp [runs]
  | cons r rs ih =>
    intro s
    have hf := new_update_steps_fields s r
    have hrec := ih (NewWatchface.update_steps s r)
    refine ⟨?_, ?_⟩
    · intro t ht
      simp only [runs, List.mem_cons] at ht
      rcases ht with rfl | ht
      · rw [hf.1, hf.2]; exact le_max_right _ _
      · exact hrec.1 t ht
    · simp only [runs, List.chain_cons]
      exact ⟨by rw [hf.2]; exact le_max_left _ _, hrec.2⟩

/-- C1: in both variants, along every sequence of step readings (non-negative
or not) and from every starting state, each call of `update_steps` leaves
`s_max_steps >= s_current_steps`, the goal after a call is
`max (old goal) (reading)`, and the goals of the successive states, starting
goal included, never decrease. -/
theorem update_steps_goal_monotone (readings : List Int) :
    (∀ s : Main.State,
      (∀ t ∈ runs Main.update_steps s readings, t.s_max_steps ≥ t.s_current_steps) ∧
      List.Chain (fun a b => a.s_max_steps ≤ b.s_max_steps) s
        (runs Main.update_steps s readings) ∧
      (∀ r : Int, (Main.update_steps s r).s_max_steps = max s.s_max_steps r)) ∧
    (∀ s : NewWatchface.State,
      (∀ t ∈ runs NewWatchface.update_steps s readings,
        t.s_max_steps ≥ t.s_current_steps) ∧
      List.Chain (fun a b => a.s_max_steps ≤ b.s_max_steps) s
        (runs NewWatchface.update_steps s readings) ∧
      (∀ r : Int, (NewWatchface.update_steps s r).s_max_steps = max s.s_max_steps r)) :=
  ⟨fun s => ⟨(main_runs_invariant readings s).1, (main_runs_invariant readings s).2,
      fun r => (main_update_steps_fields s r).2⟩,
   fun s => ⟨(new_runs_invariant readings s).1, (new_runs_invariant readings s).2,
      fun r => (new_update_steps_fields s r).2⟩⟩

/-! ## Step percentage -/

theorem steps_percent_of_nonzero (c g : Int) (hg : g ≠ 0) :
    steps_percent c g =
      some (if wrap32 (Int.tdiv (cmul c 100) g) > 100 then 100
            else wrap32 (Int.tdiv (cmul c 100) g)) := by
  simp [steps_percent, cdiv, hg]

theorem steps_percent_zero (c : Int) : steps_percent c 0 = none := by
  simp [steps_percent, cdiv]

/-- C2: the step percentage is not confined to [0,100] under 32-bit
wrap-around: a reading of 21474837 steps is non-negative, `update_steps`
raises the goal to it (so the goal is positive), `current * 100` wraps to
-2147483596, and the percentage computed by `canvas_update_proc` is -99. -/
theorem steps_percent_wraps_negative :
    (Main.update_steps (Main.initial emptyStorage) 21474837).s_current_steps = 21474837 ∧
    (Main.update_steps (Main.initial emptyStorage) 21474837).s_max_steps = 21474837 ∧
    (NewWatchface.update_steps (NewWatchface.initial emptyStorage) 21474837).s_max_steps
      = 21474837 ∧
    cmul 21474837 100 = -2147483596 ∧
    steps_percent 21474837 21474837 = some (-99) := by
  refine ⟨by decide, by decide, by decide, by decide, by decide⟩

/-- C3: with the goal 0 the step percentage is not guarded: `load_settings`
of `main.c` takes a stored goal 0 as it is, a reading of 0 steps leaves it,
and `canvas_update_proc` then divides by zero (for every step count the
percentage is undefined, not 100). -/
theorem steps_percent_zero_goal_unguarded :
    (Main.update_steps (Main.load_settings sampleSdk (Main.initial (goalStorage 0))) 0).s_max_steps
      = 0 ∧
    (∀ c : Int, steps_percent c 0 = none) ∧
    Main.canvas_update_proc sampleSdk sampleBounds
      (Main.update_steps (Main.load_settings sampleSdk (Main.initial (goalStorage 0))) 0)
      = none := by
  refine ⟨by decide, steps_percent_zero, ?_⟩
  have h : (Main.update_steps (Main.load_settings sampleSdk
      (Main.initial (goalStorage 0))) 0).s_max_steps = 0 := by decide
  simp only [Main.canvas_update_proc, h, steps_percent_zero]

/-- C4: for `current >= 0`, `goal > 0` and `current * 100 <= 2^31 - 1` the
step percentage computed by `canvas_update_proc` is
`min 100 (floor (current * 100 / goal))`; and recording 12000 steps against a
prior goal of 10000 makes the goal 12000 and the percentage 100. -/
theorem steps_percent_exact (current goal : Int) (h0 : 0 ≤ current) (hg : 0 < goal)
    (hm : current * 100 ≤ 2147483647) :
    steps_percent current goal
      = some (min 100 ⌊((current * 100 : Int) : ℚ) / ((goal : Int) : ℚ)⌋) ∧
    (∀ s : Main.State, s.s_max_steps = 10000 →
      (Main.update_steps s 12000).s_max_steps = 12000 ∧
      steps_percent (Main.update_steps s 12000).s_current_steps
        (Main.update_steps s 12000).s_max_steps = some 100) := by
  constructor
  · have hmul : cmul current 100 = current * 100 := by
      unfold cmul
      exact wrap32_of_range _ (by omega) hm
    have hq : Int.tdiv (current * 100) goal = current * 100 / goal :=
      Int.tdiv_eq_ediv (by omega) (le_of_lt hg)
    have hq0 : 0 ≤ current * 100 / goal := Int.ediv_nonneg (by omega) (le_of_lt hg)
    have hq1 : current * 100 / goal ≤ current * 100 :=
      Int.ediv_le_self _ (by omega)
    have hfloor : ⌊((current * 100 : Int) : ℚ) / ((goal : Int) : ℚ)⌋ = current * 100 / goal := by
      obtain ⟨n, rfl⟩ := Int.eq_ofNat_of_zero_le (le_of_lt hg)
      exact Rat.floor_intCast_div_natCast _ n
    rw [steps_percent_of_nonzero _ _ (ne_of_gt hg), hmul, hq,
      wrap32_of_range _ (by omega) (by omega), hfloor]
    congr 1
    split_ifs with h
    · exact (min_eq_left (le_of_lt h)).symm
    · exact (min_eq_right (not_lt.mp h)).symm
  · intro s hs
    have hf := main_update_steps_fields s 12000
    rw [hf.1, hf.2, hs]
    exact ⟨by decide, by decide⟩

theorem steps_percent_exact_witness :
    (0 : Int) ≤ 4321 ∧ (0 : Int) < 10000 ∧ (4321 : Int) * 100 ≤ 2147483647 ∧
    steps_percent 4321 10000
      = some (min 100 ⌊(((4321 : Int) * 100 : Int) : ℚ) / (((10000 : Int) : Int) : ℚ)⌋) ∧
    (∀ s : Main.State, s.s_max_steps = 10000 →
      (Main.update_steps s 12000).s_max_steps = 12000 ∧
      steps_percent (Main.update_steps s 12000).s_current_steps
        (Main.update_steps s 12000).s_max_steps = some 100) :=
  ⟨by decide, by decide, by decide,
   steps_percent_exact 4321 10000 (by decide) (by decide) (by decide)⟩

/-! ## Progress arcs -/

theorem arcsOf_append (xs ys : List GCmd) : arcsOf (xs ++ ys) = arcsOf xs ++ arcsOf ys := by
  induction xs with
  | nil => rfl
  | cons c cs ih => cases c <;> simp [arcsOf, ih]

theorem linesOf_append (xs ys : List GCmd) :
    linesOf (xs ++ ys) = linesOf xs ++ linesOf ys := by
  induction xs with
  | nil => rfl
  | cons c cs ih => cases c <;> simp [linesOf, ih]

theorem main_tick_loop_arcs (sdk : Sdk) (center : GPoint) (radius : Int) :
    ∀ (n : Nat) (i : Int), i + n = 16 → arcsOf (Main.tick_loop sdk center radius i) = [] := by
  intro n
  induction n with
  | zero =>
    intro i hi
    rw [Main.tick_loop, if_neg (by omega)]
    rfl
  | succ n ih =>
    intro i hi
    rw [Main.tick_loop, if_pos (by omega), arcsOf_append, ih (i + 1) (by push_cast at hi; omega)]
    rfl

theorem new_tick_loop_arcs (sdk : Sdk) (center : GPoint) (radius : Int) :
    ∀ (n : Nat) (i : Int), i + n = 15 →
      arcsOf (NewWatchface.tick_loop sdk center radius i) = [] := by
  intro n
  induction n with
  | zero =>
    intro i hi
    rw [NewWatchface.tick_loop, if_neg (by omega)]
    rfl
  | succ n ih =>
    intro i hi
    rw [NewWatchface.tick_loop, if_pos (by omega), arcsOf_append,
      ih (i + 1) (by push_cast at hi; omega)]
    rfl

theorem center_dots_arcs (sdk : Sdk) (center : GPoint) : arcsOf (center_dots sdk center) = [] := by
  simp [center_dots, arcsOf, List.range_succ]

/-- The arcs drawn by `canvas_update_proc` of `main.c`, whenever the step
percentage is defined. -/
theorem main_canvas_arcs (sdk : Sdk) (bounds : GRect) (s : Main.State) (q : Int)
    (hq : steps_percent s.s_current_steps s.s_max_steps = some q) :
    (Main.canvas_update_proc sdk bounds s).map arcsOf =
      some ([(left_arc_start, left_arc_end)] ++
        (if s.s_battery_level > 0
          then [(left_arc_start, battery_fill_end s.s_battery_level)] else []) ++
        [(right_arc_start, right_arc_end)] ++
        (if q > 0 then [(steps_fill_start q, right_arc_end)] else [])) := by
  simp only [Main.canvas_update_proc, hq, Option.map_some', arcsOf_append,
    main_tick_loop_arcs sdk _ _ 31 (-15) (by norm_num), center_dots_arcs]
  split_ifs <;> simp [arcsOf]

/-- The arcs drawn by `canvas_update_proc` of `new-watchface.c`, whenever the
step percentage is defined. -/
theorem new_canvas_arcs (sdk : Sdk) (bounds : GRect) (s : NewWatchface.State) (q : Int)
    (hq : steps_percent s.s_current_steps s.s_max_steps = some q) :
    (NewWatchface.canvas_update_proc sdk bounds s).map arcsOf =
      some ([(left_arc_start, left_arc_end)] ++
        (if s.s_battery_level > 0
          then [(left_arc_start, battery_fill_end s.s_battery_level)] else []) ++
        [(right_arc_start, right_arc_end)] ++
        (if q > 0 then [(steps_fill_start q, right_arc_end)] else [])) := by
  simp only [NewWatchface.canvas_update_proc, hq, Option.map_some', arcsOf_append,
    new_tick_loop_arcs sdk _ _ 30 (-15) (by norm_num), center_dots_arcs]
  split_ifs <;> simp [arcsOf]

theorem arc_window_values :
    left_arc_start = 36408 ∧ left_arc_end = 45511 ∧
    right_arc_start = 20024 ∧ right_arc_end = 29127 := by
  refine ⟨by decide, by decide, by decide, by decide⟩

theorem battery_fill_end_eq (p : Int) (h0 : 0 ≤ p) (h1 : p ≤ 100) :
    battery_fill_end p = 36408 + 9103 * p / 100 := by
  have hmul : cmul 9103 p = 9103 * p := by
    unfold cmul
    exact wrap32_of_range _ (by omega) (by omega)
  have hdiv : Int.tdiv (9103 * p) 100 = 9103 * p / 100 :=
    Int.tdiv_eq_ediv (by omega) (by omega)
  have hsub : csub 45511 36408 = 9103 := by decide
  simp only [battery_fill_end, arc_window_values.1, arc_window_values.2.1]
  rw [hsub, hmul]
  simp only [cdivk, hdiv, cadd]
  exact wrap32_of_range _ (by omega) (by omega)

theorem steps_fill_start_eq (q : Int) (h0 : 0 ≤ q) (h1 : q ≤ 100) :
    steps_fill_start q = 29127 - 9103 * q / 100 := by
  have hmul : cmul 9103 q = 9103 * q := by
    unfold cmul
    exact wrap32_of_range _ (by omega) (by omega)
  have hdiv : Int.tdiv (9103 * q) 100 = 9103 * q / 100 :=
    Int.tdiv_eq_ediv (by omega) (by omega)
  have hsub : csub 29127 20024 = 9103 := by decide
  simp only [steps_fill_start, arc_window_values.2.2.1, arc_window_values.2.2.2]
  rw [hsub, hmul]
  simp only [cdivk, hdiv, csub]
  exact wrap32_of_range _ (by omega) (by omega)

theorem steps_percent_le (c g sq : Int) (h : steps_percent c g = some sq) : sq ≤ 100 := by
  by_cases hg : g = 0
  · rw [hg, steps_percent_zero] at h
    exact absurd h (by simp)
  · rw [steps_percent_of_nonzero c g hg] at h
    have e := Option.some.inj h
    rw [← e]
    split_ifs with h1
    · exact le_refl _
    · exact not_lt.mp h1

theorem steps_percent_defined (c g : Int) (hg : g ≠ 0) :
    ∃ sq : Int, steps_percent c g = some sq ∧ sq ≤ 100 :=
  ⟨_, steps_percent_of_nonzero c g hg,
    steps_percent_le c g _ (steps_percent_of_nonzero c g hg)⟩

/-- The battery fill arc of `canvas_update_proc`, by the window formula. -/
theorem battery_fill_part (b : Int) (hb : b ≤ 100) :
    (if b > 0 then [(left_arc_start, battery_fill_end b)] else []) =
      (if 1 ≤ b then
        [(left_arc_start, left_arc_start + Int.tdiv ((left_arc_end - left_arc_start) * b) 100)]
      else []) := by
  by_cases h : 1 ≤ b
  · rw [if_pos (by omega), if_pos h, battery_fill_end_eq b (by omega) hb, arc_window_values.1,
      arc_window_values.2.1, show (45511 : Int) - 36408 = 9103 from by norm_num,
      Int.tdiv_eq_ediv (by omega) (by omega)]
  · rw [if_neg (by omega), if_neg h]

/-- The steps fill arc of `canvas_update_proc`, by the window formula. -/
theorem steps_fill_part (q : Int) (hq : q ≤ 100) :
    (if q > 0 then [(steps_fill_start q, right_arc_end)] else []) =
      (if 1 ≤ q then
        [(right_arc_end - Int.tdiv ((right_arc_end - right_arc_start) * q) 100, right_arc_end)]
      else []) := by
  by_cases h : 1 ≤ q
  · rw [if_pos (by omega), if_pos h, steps_fill_start_eq q (by omega) hq,
      arc_window_values.2.2.1, arc_window_values.2.2.2,
      show (29127 : Int) - 20024 = 9103 from by norm_num,
      Int.tdiv_eq_ediv (by omega) (by omega)]
  · rw [if_neg (by omega), if_neg h]

/-- C5 (as amended): with the window angles `DEG_TO_TRIGANGLE` of 200, 250,
110 and 160 degrees, in both variants and in every state with a non-zero goal
and a battery percent of at most 100, `canvas_update_proc` draws exactly: the
battery background; for a battery percent `p >= 1` the battery fill arc from
the window start to `start + span * p / 100`, whatever the steps percent; the
steps background; for a steps percent `q >= 1` (it is at most 100) the steps
fill arc from `end - span * q / 100` to the window end, whatever the battery
percent; the quotients are truncated to integers.  For `p = 45` the battery
fill end is `start + floor (0.45 * (end - start))`, which is 7/20 of an angle
unit below `start + 0.45 * (end - start)`. -/
theorem arc_fill_ranges (sdk : Sdk) (bounds : GRect) :
    (left_arc_start = Int.tdiv (200 * 65536) 360 ∧ left_arc_end = Int.tdiv (250 * 65536) 360 ∧
      right_arc_start = Int.tdiv (110 * 65536) 360 ∧
      right_arc_end = Int.tdiv (160 * 65536) 360) ∧
    (∀ s : Main.State, s.s_battery_level ≤ 100 → s.s_max_steps ≠ 0 →
      ∃ q : Int, steps_percent s.s_current_steps s.s_max_steps = some q ∧ q ≤ 100 ∧
        (Main.canvas_update_proc sdk bounds s).map arcsOf =
          some ([(left_arc_start, left_arc_end)] ++
            (if 1 ≤ s.s_battery_level then
              [(left_arc_start, left_arc_start +
                Int.tdiv ((left_arc_end - left_arc_start) * s.s_battery_level) 100)]
            else []) ++
            [(right_arc_start, right_arc_end)] ++
            (if 1 ≤ q then
              [(right_arc_end - Int.tdiv ((right_arc_end - right_arc_start) * q) 100,
                right_arc_end)]
            else []))) ∧
    (∀ t : NewWatchface.State, t.s_battery_level ≤ 100 → t.s_max_steps ≠ 0 →
      ∃ q : Int, steps_percent t.s_current_steps t.s_max_steps = some q ∧ q ≤ 100 ∧
        (NewWatchface.canvas_update_proc sdk bounds t).map arcsOf =
          some ([(left_arc_start, left_arc_end)] ++
            (if 1 ≤ t.s_battery_level then
              [(left_arc_start, left_arc_start +
                Int.tdiv ((left_arc_end - left_arc_start) * t.s_battery_level) 100)]
            else []) ++
            [(right_arc_start, right_arc_end)] ++
            (if 1 ≤ q then
              [(right_arc_end - Int.tdiv ((right_arc_end - right_arc_start) * q) 100,
                right_arc_end)]
            else []))) ∧
    battery_fill_end 45 =
      left_arc_start + ⌊(45 / 100 : ℚ) * ((left_arc_end : ℚ) - (left_arc_start : ℚ))⌋ ∧
    (left_arc_start : ℚ) + 45 / 100 * ((left_arc_end : ℚ) - (left_arc_start : ℚ))
      - (battery_fill_end 45 : ℚ) = 7 / 20 := by
  have h45 : battery_fill_end 45 = 40504 := by decide
  refine ⟨⟨by decide, by decide, by decide, by decide⟩, ?_, ?_, ?_, ?_⟩
  · intro s hb hg
    obtain ⟨q, hq, hq100⟩ := steps_percent_defined s.s_current_steps s.s_max_steps hg
    refine ⟨q, hq, hq100, ?_⟩
    rw [main_canvas_arcs sdk bounds s q hq, battery_fill_part _ hb, steps_fill_part q hq100]
  · intro t hb hg
    obtain ⟨q, hq, hq100⟩ := steps_percent_defined t.s_current_steps t.s_max_steps hg
    refine ⟨q, hq, hq100, ?_⟩
    rw [new_canvas_arcs sdk bounds t q hq, battery_fill_part _ hb, steps_fill_part q hq100]
  · rw [h45, arc_window_values.1, arc_window_values.2.1]
    have : ⌊(45 / 100 : ℚ) * (((45511 : Int) : ℚ) - ((36408 : Int) : ℚ))⌋ = 4096 := by
      rw [Int.floor_eq_iff]
      constructor <;> norm_num
    rw [this]
    norm_num
  · rw [h45, arc_window_values.1, arc_window_values.2.1]
    norm_num

theorem arc_fill_ranges_witness :
    (Main.canvas_update_proc sampleSdk sampleBounds sampleMain).map arcsOf =
      some [(36408, 45511), (36408, 40504), (20024, 29127), (24576, 29127)] ∧
    (Main.canvas_update_proc sampleSdk sampleBounds
        (Main.battery_callback 30 (Main.initial emptyStorage))).map arcsOf =
      some [(36408, 45511), (36408, 39138), (20024, 29127)] ∧
    (Main.canvas_update_proc sampleSdk sampleBounds
        (Main.update_steps (Main.initial emptyStorage) 5000)).map arcsOf =
      some [(36408, 45511), (20024, 29127), (24576, 29127)] ∧
    (NewWatchface.canvas_update_proc sampleSdk sampleBounds
        (NewWatchface.battery_callback 30 (NewWatchface.initial emptyStorage))).map arcsOf =
      some [(36408, 45511), (36408, 39138), (20024, 29127)] := by
  refine ⟨?_, ?_, ?_, ?_⟩
  · obtain ⟨q, hq, -, h⟩ :=
      (arc_fill_ranges sampleSdk sampleBounds).2.1 sampleMain (by decide) (by decide)
    have hv : steps_percent sampleMain.s_current_steps sampleMain.s_max_steps = some 50 := by
      decide
    rw [hv] at hq
    rw [h, ← Option.some.inj hq]
    decide
  · obtain ⟨q, hq, -, h⟩ :=
      (arc_fill_ranges sampleSdk sampleBounds).2.1
        (Main.battery_callback 30 (Main.initial emptyStorage)) (by decide) (by decide)
    have hv : steps_percent (Main.battery_callback 30 (Main.initial emptyStorage)).s_current_steps
        (Main.battery_callback 30 (Main.initial emptyStorage)).s_max_steps = some 0 := by
      decide
    rw [hv] at hq
    rw [h, ← Option.some.inj hq]
    decide
  · obtain ⟨q, hq, -, h⟩ :=
      (arc_fill_ranges sampleSdk sampleBounds).2.1
        (Main.update_steps (Main.initial emptyStorage) 5000) (by decide) (by decide)
    have hv : steps_percent (Main.update_steps (Main.initial emptyStorage) 5000).s_current_steps
        (Main.update_steps (Main.initial emptyStorage) 5000).s_max_steps = some 50 := by
      decide
    rw [hv] at hq
    rw [h, ← Option.some.inj hq]
    decide
  · obtain ⟨q, hq, -, h⟩ :=
      (arc_fill_ranges sampleSdk sampleBounds).2.2.1
        (NewWatchface.battery_callback 30 (NewWatchface.initial emptyStorage))
        (by decide) (by decide)
    have hv : steps_percent
        (NewWatchface.battery_callback 30 (NewWatchface.initial emptyStorage)).s_current_steps
        (NewWatchface.battery_callback 30 (NewWatchface.initial emptyStorage)).s_max_steps
        = some 0 := by
      decide
    rw [hv] at hq
    rw [h, ← Option.some.inj hq]
    decide

/-- C5, as stated, fails at battery percent 45: `canvas_update_proc` draws
the battery fill arc up to the angle 40504, while
`start + 0.45 * (end - start)` is 40504.35. -/
theorem battery_fill_45_not_exact :
    (Main.canvas_update_proc sampleSdk sampleBounds
        (Main.battery_callback 45 (Main.initial emptyStorage))).map arcsOf =
      some [(left_arc_start, left_arc_end), (left_arc_start, 40504),
            (right_arc_start, right_arc_end)] ∧
    ((40504 : Int) : ℚ) ≠
      (left_arc_start : ℚ) + 45 / 100 * ((left_arc_end : ℚ) - (left_arc_start : ℚ)) := by
  constructor
  · rw [main_canvas_arcs sampleSdk sampleBounds _ 0 (by decide)]
    have h45 : battery_fill_end 45 = 40504 := by decide
    have hl : (Main.battery_callback 45 (Main.initial emptyStorage)).s_battery_level = 45 := rfl
    rw [hl, h45]
    rfl
  · rw [arc_window_values.1, arc_window_values.2.1]
    norm_num

theorem battery_fill_cases (b : Int) :
    (if b > 0 then [(left_arc_start, battery_fill_end b)] else []) =
      (if b ≤ 0 then []
        else if b = 100 then [(left_arc_start, left_arc_end)]
        else [(left_arc_start, battery_fill_end b)]) := by
  have hb100 : battery_fill_end 100 = left_arc_end := by decide
  by_cases h0 : b ≤ 0
  · rw [if_neg (by omega), if_pos h0]
  · rw [if_pos (by omega), if_neg h0]
    by_cases h1 : b = 100
    · rw [if_pos h1, h1, hb100]
    · rw [if_neg h1]

theorem steps_fill_cases (q : Int) :
    (if q > 0 then [(steps_fill_start q, right_arc_end)] else []) =
      (if q ≤ 0 then []
        else if q = 100 then [(right_arc_start, right_arc_end)]
        else [(steps_fill_start q, right_arc_end)]) := by
  have hs100 : steps_fill_start 100 = right_arc_start := by decide
  by_cases h0 : q ≤ 0
  · rw [if_neg (by omega), if_pos h0]
  · rw [if_pos (by omega), if_neg h0]
    by_cases h1 : q = 100
    · rw [if_pos h1, h1, hs100]
    · rw [if_neg h1]

/-- C6: for percents `0 <= p <= q <= 100` the battery fill end angle at `p`
is at most the one at `q` and the steps fill start angle at `p` is at least
the one at `q`.  In both variants and in every state with a non-zero goal,
each arc on its own, whatever the other arc shows: at percent 0 (or below) no
fill arc is drawn for it, only its background; at percent 100 its fill arc
runs exactly from the window start angle to the window end angle; at any
other percent its fill arc ends (battery) or starts (steps) at the angle of
that percent. -/
theorem arc_fill_monotone (p q : Int) (hp : 0 ≤ p) (hpq : p ≤ q) (hq : q ≤ 100) :
    battery_fill_end p ≤ battery_fill_end q ∧
    steps_fill_start q ≤ steps_fill_start p ∧
    (battery_fill_end 0 = left_arc_start ∧ battery_fill_end 100 = left_arc_end ∧
      steps_fill_start 0 = right_arc_end ∧ steps_fill_start 100 = right_arc_start) ∧
    (∀ (sdk : Sdk) (bounds : GRect) (s : Main.State), s.s_max_steps ≠ 0 →
      ∃ sp : Int, steps_percent s.s_current_steps s.s_max_steps = some sp ∧ sp ≤ 100 ∧
        (Main.canvas_update_proc sdk bounds s).map arcsOf =
          some ([(left_arc_start, left_arc_end)] ++
            (if s.s_battery_level ≤ 0 then []
              else if s.s_battery_level = 100 then [(left_arc_start, left_arc_end)]
              else [(left_arc_start, battery_fill_end s.s_battery_level)]) ++
            [(right_arc_start, right_arc_end)] ++
            (if sp ≤ 0 then []
              else if sp = 100 then [(right_arc_start, right_arc_end)]
              else [(steps_fill_start sp, right_arc_end)]))) ∧
    (∀ (sdk : Sdk) (bounds : GRect) (s : NewWatchface.State), s.s_max_steps ≠ 0 →
      ∃ sp : Int, steps_percent s.s_current_steps s.s_max_steps = some sp ∧ sp ≤ 100 ∧
        (NewWatchface.canvas_update_proc sdk bounds s).map arcsOf =
          some ([(left_arc_start, left_arc_end)] ++
            (if s.s_battery_level ≤ 0 then []
              else if s.s_battery_level = 100 then [(left_arc_start, left_arc_end)]
              else [(left_arc_start, battery_fill_end s.s_battery_level)]) ++
            [(right_arc_start, right_arc_end)] ++
            (if sp ≤ 0 then []
              else if sp = 100 then [(right_arc_start, right_arc_end)]
              else [(steps_fill_start sp, right_arc_end)]))) := by
  refine ⟨?_, ?_, ⟨by decide, by decide, by decide, by decide⟩, ?_, ?_⟩
  · rw [battery_fill_end_eq p hp (by omega), battery_fill_end_eq q (by omega) hq]
    omega
  · rw [steps_fill_start_eq p hp (by omega), steps_fill_start_eq q (by omega) hq]
    omega
  · intro sdk bounds s hg
    obtain ⟨sp, hsp, hsp100⟩ := steps_percent_defined s.s_current_steps s.s_max_steps hg
    refine ⟨sp, hsp, hsp100, ?_⟩
    rw [main_canvas_arcs sdk bounds s sp hsp, battery_fill_cases, steps_fill_cases]
  · intro sdk bounds s hg
    obtain ⟨sp, hsp, hsp100⟩ := steps_percent_defined s.s_current_steps s.s_max_steps hg
    refine ⟨sp, hsp, hsp100, ?_⟩
    rw [new_canvas_arcs sdk bounds s sp hsp, battery_fill_cases, steps_fill_cases]

theorem arc_fill_monotone_witness :
    ((0 : Int) ≤ 30 ∧ (30 : Int) ≤ 70 ∧ (70 : Int) ≤ 100) ∧
    battery_fill_end 30 ≤ battery_fill_end 70 ∧
    steps_fill_start 70 ≤ steps_fill_start 30 ∧
    (Main.canvas_update_proc sampleSdk sampleBounds
        (Main.update_steps (Main.initial emptyStorage) 5000)).map arcsOf =
      some [(36408, 45511), (20024, 29127), (24576, 29127)] ∧
    (Main.canvas_update_proc sampleSdk sampleBounds
        (Main.update_steps (Main.battery_callback 100 (Main.initial emptyStorage)) 5000)).map
        arcsOf =
      some [(36408, 45511), (36408, 45511), (20024, 29127), (24576, 29127)] ∧
    (NewWatchface.canvas_update_proc sampleSdk sampleBounds
        (NewWatchface.update_steps
          (NewWatchface.battery_callback 30 (NewWatchface.initial emptyStorage)) 10000)).map
        arcsOf =
      some [(36408, 45511), (36408, 39138), (20024, 29127), (20024, 29127)] := by
  have hm := arc_fill_monotone 30 70 (by decide) (by decide) (by decide)
  refine ⟨⟨by decide, by decide, by decide⟩, hm.1, hm.2.1, ?_, ?_, ?_⟩
  · obtain ⟨sp, hsp, -, h⟩ := hm.2.2.2.1 sampleSdk sampleBounds
      (Main.update_steps (Main.initial emptyStorage) 5000) (by decide)
    have hv : steps_percent (Main.update_steps (Main.initial emptyStorage) 5000).s_current_steps
        (Main.update_steps (Main.initial emptyStorage) 5000).s_max_steps = some 50 := by
      decide
    rw [hv] at hsp
    rw [h, ← Option.some.inj hsp]
    decide
  · obtain ⟨sp, hsp, -, h⟩ := hm.2.2.2.1 sampleSdk sampleBounds
      (Main.update_steps (Main.battery_callback 100 (Main.initial emptyStorage)) 5000)
      (by decide)
    have hv : steps_percent
        (Main.update_steps (Main.battery_callback 100
          (Main.initial emptyStorage)) 5000).s_current_steps
        (Main.update_steps (Main.battery_callback 100
          (Main.initial emptyStorage)) 5000).s_max_steps = some 50 := by
      decide
    rw [hv] at hsp
    rw [h, ← Option.some.inj hsp]
    decide
  · obtain ⟨sp, hsp, -, h⟩ := hm.2.2.2.2 sampleSdk sampleBounds
      (NewWatchface.update_steps
        (NewWatchface.battery_callback 30 (NewWatchface.initial emptyStorage)) 10000)
      (by decide)
    have hv : steps_percent
        (NewWatchface.update_steps
          (NewWatchface.battery_callback 30 (NewWatchface.initial emptyStorage))
          10000).s_current_steps
        (NewWatchface.update_steps
          (NewWatchface.battery_callback 30 (NewWatchface.initial emptyStorage))
          10000).s_max_steps = some 100 := by
      decide
    rw [hv] at hsp
    rw [h, ← Option.some.inj hsp]
    decide

/-! ## Tick marks -/

theorem tdiv_two_bounds (x : Int) (h0 : -32768 ≤ x) (h1 : x ≤ 32767) :
    -16384 ≤ Int.tdiv x 2 ∧ Int.tdiv x 2 ≤ 16383 := by
  rcases le_or_lt 0 x with hx | hx
  · rw [Int.tdiv_eq_ediv hx (by norm_num)]
    omega
  · have h : Int.tdiv x 2 = -((-x) / 2) := by
      rw [← Int.tdiv_eq_ediv (by omega) (by norm_num), Int.neg_tdiv, neg_neg]
    rw [h]
    omega

theorem dial_radius_bounds (bounds : GRect)
    (hw : -32768 ≤ bounds.w ∧ bounds.w ≤ 32767) (hh : -32768 ≤ bounds.h ∧ bounds.h ≤ 32767) :
    -16392 ≤ dial_radius bounds ∧ dial_radius bounds ≤ 16375 := by
  unfold dial_radius csub cdivk
  split_ifs
  · have h := tdiv_two_bounds bounds.w hw.1 hw.2
    rw [wrap32_of_range _ (by omega) (by omega)]
    omega
  · have h := tdiv_two_bounds bounds.h hh.1 hh.2
    rw [wrap32_of_range _ (by omega) (by omega)]
    omega

theorem tick_body_line (sdk : Sdk) (center : GPoint) (radius i : Int)
    (hr0 : -16392 ≤ radius) (hr1 : radius ≤ 16375) (hi0 : -15 ≤ i) (hi1 : i ≤ 15) :
    linesOf (tick_body sdk center radius i) = [tickSegment sdk center radius i] := by
  have hmul : cmul 65536 i = 65536 * i := by
    unfold cmul
    exact wrap32_of_range _ (by omega) (by omega)
  have h6 : csub radius 6 = radius - 6 := wrap32_of_range _ (by omega) (by omega)
  have h3 : csub radius 3 = radius - 3 := wrap32_of_range _ (by omega) (by omega)
  have hd : (Int.tmod i 5 = 0) ↔ (5 ∣ i) := Int.dvd_iff_tmod_eq_zero.symm
  simp only [tick_body, tickSegment, linesOf, cdivk, TRIG_MAX_ANGLE, hmul, h6, h3, hd]

theorem main_tick_loop_lines (sdk : Sdk) (center : GPoint) (radius : Int)
    (hr0 : -16392 ≤ radius) (hr1 : radius ≤ 16375) :
    ∀ (n : Nat) (i : Int), -15 ≤ i → i + n = 16 →
      linesOf (Main.tick_loop sdk center radius i) =
        (List.range n).map (fun (k : Nat) => tickSegment sdk center radius (i + (k : Int))) := by
  intro n
  induction n with
  | zero =>
    intro i _ hi
    rw [Main.tick_loop, if_neg (by omega)]
    rfl
  | succ n ih =>
    intro i hlo hi
    push_cast at hi
    rw [Main.tick_loop, if_pos (by omega), linesOf_append,
      tick_body_line sdk center radius i hr0 hr1 hlo (by omega),
      ih (i + 1) (by omega) (by omega), List.range_succ_eq_map]
    simp only [List.map_cons, List.map_map, List.singleton_append, Nat.cast_zero, add_zero,
      List.cons.injEq, true_and]
    apply List.map_congr_left
    intro k _
    simp only [Function.comp, Nat.succ_eq_add_one, Nat.cast_add, Nat.cast_one]
    congr 1
    omega

theorem new_tick_loop_lines (sdk : Sdk) (center : GPoint) (radius : Int)
    (hr0 : -16392 ≤ radius) (hr1 : radius ≤ 16375) :
    ∀ (n : Nat) (i : Int), -15 ≤ i → i + n = 15 →
      linesOf (NewWatchface.tick_loop sdk center radius i) =
        (List.range n).map (fun (k : Nat) => tickSegment sdk center radius (i + (k : Int))) := by
  intro n
  induction n with
  | zero =>
    intro i _ hi
    rw [NewWatchface.tick_loop, if_neg (by omega)]
    rfl
  | succ n ih =>
    intro i hlo hi
    push_cast at hi
    rw [NewWatchface.tick_loop, if_pos (by omega), linesOf_append,
      tick_body_line sdk center radius i hr0 hr1 hlo (by omega),
      ih (i + 1) (by omega) (by omega), List.range_succ_eq_map]
    simp only [List.map_cons, List.map_map, List.singleton_append, Nat.cast_zero, add_zero,
      List.cons.injEq, true_and]
    apply List.map_congr_left
    intro k _
    simp only [Function.comp, Nat.succ_eq_add_one, Nat.cast_add, Nat.cast_one]
    congr 1
    omega

theorem center_dots_lines (sdk : Sdk) (center : GPoint) :
    linesOf (center_dots sdk center) = [] := by
  simp [center_dots, linesOf, List.range_succ]

/-- C7: for layer bounds in the `int16_t` range, `canvas_update_proc` of
`main.c` draws exactly the 31 radial segments of the tick indices -15..15, at
angle `TRIG_MAX_ANGLE * i / 60`, from inner radius `radius - 6` (multiples of
5, negative ones and 0 included) or `radius - 3` to outer radius `radius`;
`canvas_update_proc` of `new-watchface.c` draws the 30 segments of the indices
-15..14 only, the segment of index 15 is missing there. -/
theorem tick_marks (sdk : Sdk) (bounds : GRect) (s : Main.State) (t : NewWatchface.State)
    (hw : -32768 ≤ bounds.w ∧ bounds.w ≤ 32767) (hh : -32768 ≤ bounds.h ∧ bounds.h ≤ 32767)
    (hs : s.s_max_steps ≠ 0) (ht : t.s_max_steps ≠ 0) :
    (Main.canvas_update_proc sdk bounds s).map linesOf =
      some ((List.range 31).map (fun (k : Nat) =>
        tickSegment sdk (sdk.grect_center_point bounds) (dial_radius bounds) ((k : Int) - 15))) ∧
    (NewWatchface.canvas_update_proc sdk bounds t).map linesOf =
      some ((List.range 30).map (fun (k : Nat) =>
        tickSegment sdk (sdk.grect_center_point bounds) (dial_radius bounds) ((k : Int) - 15))) ∧
    (Main.canvas_update_proc sdk bounds s).map (fun out => (linesOf out).length) = some 31 ∧
    (NewWatchface.canvas_update_proc sdk bounds t).map (fun out => (linesOf out).length)
      = some 30 := by
  have hr := dial_radius_bounds bounds hw hh
  have hm : (Main.canvas_update_proc sdk bounds s).map linesOf =
      some ((List.range 31).map (fun (k : Nat) =>
        tickSegment sdk (sdk.grect_center_point bounds) (dial_radius bounds)
          ((k : Int) - 15))) := by
    simp only [Main.canvas_update_proc, steps_percent_of_nonzero _ _ hs, Option.map_some',
      linesOf_append, center_dots_lines,
      main_tick_loop_lines sdk _ _ hr.1 hr.2 31 (-15) (by norm_num) (by norm_num)]
    have hf : (fun (k : Nat) => tickSegment sdk (sdk.grect_center_point bounds)
          (dial_radius bounds) (-15 + (k : Int)))
        = (fun (k : Nat) => tickSegment sdk (sdk.grect_center_point bounds)
          (dial_radius bounds) ((k : Int) - 15)) := by
      funext k
      rw [show -15 + (k : Int) = (k : Int) - 15 from by omega]
    rw [hf]
    split_ifs <;> simp [linesOf]
  have hn : (NewWatchface.canvas_update_proc sdk bounds t).map linesOf =
      some ((List.range 30).map (fun (k : Nat) =>
        tickSegment sdk (sdk.grect_center_point bounds) (dial_radius bounds)
          ((k : Int) - 15))) := by
    simp only [NewWatchface.canvas_update_proc, steps_percent_of_nonzero _ _ ht,
      Option.map_some', linesOf_append, center_dots_lines,
      new_tick_loop_lines sdk _ _ hr.1 hr.2 30 (-15) (by norm_num) (by norm_num)]
    have hf : (fun (k : Nat) => tickSegment sdk (sdk.grect_center_point bounds)
          (dial_radius bounds) (-15 + (k : Int)))
        = (fun (k : Nat) => tickSegment sdk (sdk.grect_center_point bounds)
          (dial_radius bounds) ((k : Int) - 15)) := by
      funext k
      rw [show -15 + (k : Int) = (k : Int) - 15 from by omega]
    rw [hf]
    split_ifs <;> simp [linesOf]
  refine ⟨hm, hn, ?_, ?_⟩
  · have h := congrArg (Option.map List.length) hm
    simpa [Option.map_map, Function.comp] using h
  · have h := congrArg (Option.map List.length) hn
    simpa [Option.map_map, Function.comp] using h

theorem tick_marks_witness :
    (Main.canvas_update_proc sampleSdk sampleBounds sampleMain).map
        (fun out => (linesOf out).length) = some 31 ∧
    (NewWatchface.canvas_update_proc sampleSdk sampleBounds sampleNew).map
        (fun out => (linesOf out).length) = some 30 :=
  ⟨(tick_marks sampleSdk sampleBounds sampleMain sampleNew (by decide) (by decide)
      (by decide) (by decide)).2.2.1,
   (tick_marks sampleSdk sampleBounds sampleMain sampleNew (by decide) (by decide)
      (by decide) (by decide)).2.2.2⟩

/-! ## Loading and persisting the goal -/

open PersistKey in
/-- C8: `load_max_steps` of `new-watchface.c`, run at program start over any
store, leaves the goal at the stored value when one is stored and is at least
1000, and at 10000 otherwise, hence at least 1000; `load_settings` of `main.c`
takes the stored value as it is (0 for a key that holds no integer), so a
stored 500 becomes the goal 500. -/
theorem initial_goal_load (st : Storage) :
    (NewWatchface.load_max_steps (NewWatchface.initial st)).s_max_steps =
      (match st STORAGE_MAX_STEPS with
        | some (PersistValue.int v) => if 1000 ≤ v then v else 10000
        | _ => 10000) ∧
    1000 ≤ (NewWatchface.load_max_steps (NewWatchface.initial st)).s_max_steps ∧
    (∀ sdk : Sdk, (Main.load_settings sdk (Main.initial st)).s_max_steps =
      (match st MESSAGE_KEY_STEP_GOAL with
        | some (PersistValue.int v) => v
        | some (PersistValue.bool _) => 0
        | none => 10000)) ∧
    (Main.load_settings sampleSdk (Main.initial (goalStorage 500))).s_max_steps = 500 := by
  have hnew : (NewWatchface.load_max_steps (NewWatchface.initial st)).s_max_steps =
      (match st STORAGE_MAX_STEPS with
        | some (PersistValue.int v) => if 1000 ≤ v then v else 10000
        | _ => 10000) := by
    unfold NewWatchface.load_max_steps NewWatchface.initial persist_exists persist_read_int
    dsimp only
    cases h : st STORAGE_MAX_STEPS with
    | none => simp
    | some pv =>
      cases pv with
      | int v =>
        simp only [Option.isSome_some, if_true]
        split_ifs with h1 h2 h2
        · omega
        · rfl
        · rfl
        · omega
      | bool b => simp
  refine ⟨hnew, ?_, ?_, by decide⟩
  · rw [hnew]
    cases h : st STORAGE_MAX_STEPS with
    | none => simp
    | some pv =>
      cases pv with
      | int v =>
        dsimp only
        split_ifs with h1
        · exact h1
        · norm_num
      | bool b => simp
  · intro sdk
    unfold Main.load_settings Main.initial persist_exists persist_read_int
    dsimp only
    cases h : st MESSAGE_KEY_STEP_GOAL with
    | none => simp
    | some pv => cases pv <;> simp

open PersistKey in
/-- C9: `update_steps` of `new-watchface.c` writes the goal to its storage key
exactly when the reading exceeds the goal, after which the stored goal is
`s_max_steps`, and leaves storage unchanged otherwise; `update_steps` of
`main.c` never writes storage: after a reading of 12000 steps from a fresh
start the goal is 12000 and the step-goal key is still absent. -/
theorem update_steps_persist (s : NewWatchface.State) (m : Main.State) (r : Int) :
    (NewWatchface.update_steps s r).storage =
      (if r > s.s_max_steps then persist_write_int s.storage STORAGE_MAX_STEPS r
        else s.storage) ∧
    (r > s.s_max_steps →
      (NewWatchface.update_steps s r).storage STORAGE_MAX_STEPS =
        some (PersistValue.int (NewWatchface.update_steps s r).s_max_steps)) ∧
    (Main.update_steps m r).storage = m.storage ∧
    (Main.update_steps (Main.initial emptyStorage) 12000).s_max_steps = 12000 ∧
    (Main.update_steps (Main.initial emptyStorage) 12000).storage MESSAGE_KEY_STEP_GOAL
      = none := by
  refine ⟨?_, ?_, ?_, by decide, by decide⟩
  · unfold NewWatchface.update_steps NewWatchface.save_max_steps
    dsimp only
    split_ifs <;> rfl
  · intro h
    unfold NewWatchface.update_steps NewWatchface.save_max_steps
    dsimp only
    rw [if_pos h]
    simp [persist_write_int]
  · unfold Main.update_steps
    dsimp only
    split_ifs <;> rfl

/-! ## Configuration push -/

open PersistKey in
theorem save_settings_storage (s : Main.State) :
    (Main.save_settings s).storage MESSAGE_KEY_USE_24_HOUR
      = some (PersistValue.bool s.s_use_24h) ∧
    (Main.save_settings s).storage MESSAGE_KEY_BACKGROUND_COLOR
      = some (PersistValue.int s.s_background_color.argb) ∧
    (Main.save_settings s).storage MESSAGE_KEY_FOREGROUND_COLOR
      = some (PersistValue.int s.s_foreground_color.argb) ∧
    (Main.save_settings s).storage MESSAGE_KEY_SECONDARY_COLOR
      = some (PersistValue.int s.s_secondary_color.argb) ∧
    (Main.save_settings s).storage MESSAGE_KEY_STEP_GOAL
      = some (PersistValue.int s.s_max_steps) ∧
    (Main.save_settings s).storage STORAGE_MAX_STEPS = s.storage STORAGE_MAX_STEPS := by
  simp [Main.save_settings, persist_write_int, persist_write_bool]

open PersistKey in
theorem inbox_variables (sdk : Sdk) (push : Dictionary) (s : Main.State) :
    (Main.inbox_received_callback sdk push s).s_use_24h =
      (match push MESSAGE_KEY_USE_24_HOUR with
        | some v => decide (v = 1)
        | none => s.s_use_24h) ∧
    (Main.inbox_received_callback sdk push s).s_background_color =
      (match push MESSAGE_KEY_BACKGROUND_COLOR with
        | some v => sdk.GColorFromHEX v
        | none => s.s_background_color) ∧
    (Main.inbox_received_callback sdk push s).s_foreground_color =
      (match push MESSAGE_KEY_FOREGROUND_COLOR with
        | some v => sdk.GColorFromHEX v
        | none => s.s_foreground_color) ∧
    (Main.inbox_received_callback sdk push s).s_secondary_color =
      (match push MESSAGE_KEY_SECONDARY_COLOR with
        | some v => sdk.GColorFromHEX v
        | none => s.s_secondary_color) ∧
    (Main.inbox_received_callback sdk push s).s_max_steps = s.s_max_steps ∧
    (Main.inbox_received_callback sdk push s).s_current_steps = s.s_current_steps ∧
    (Main.inbox_received_callback sdk push s).s_battery_level = s.s_battery_level := by
  unfold Main.inbox_received_callback Main.save_settings
  cases push MESSAGE_KEY_USE_24_HOUR <;> cases push MESSAGE_KEY_BACKGROUND_COLOR <;>
    cases push MESSAGE_KEY_FOREGROUND_COLOR <;> cases push MESSAGE_KEY_SECONDARY_COLOR <;>
    simp

open PersistKey in
theorem inbox_storage (sdk : Sdk) (push : Dictionary) (s : Main.State) :
    (Main.inbox_received_callback sdk push s).storage MESSAGE_KEY_USE_24_HOUR
      = some (PersistValue.bool (Main.inbox_received_callback sdk push s).s_use_24h) ∧
    (Main.inbox_received_callback sdk push s).storage MESSAGE_KEY_BACKGROUND_COLOR
      = some (PersistValue.int
          (Main.inbox_received_callback sdk push s).s_background_color.argb) ∧
    (Main.inbox_received_callback sdk push s).storage MESSAGE_KEY_FOREGROUND_COLOR
      = some (PersistValue.int
          (Main.inbox_received_callback sdk push s).s_foreground_color.argb) ∧
    (Main.inbox_received_callback sdk push s).storage MESSAGE_KEY_SECONDARY_COLOR
      = some (PersistValue.int
          (Main.inbox_received_callback sdk push s).s_secondary_color.argb) ∧
    (Main.inbox_received_callback sdk push s).storage MESSAGE_KEY_STEP_GOAL
      = some (PersistValue.int s.s_max_steps) ∧
    (Main.inbox_received_callback sdk push s).storage STORAGE_MAX_STEPS
      = s.storage STORAGE_MAX_STEPS := by
  unfold Main.inbox_received_callback
  cases push MESSAGE_KEY_USE_24_HOUR <;> cases push MESSAGE_KEY_BACKGROUND_COLOR <;>
    cases push MESSAGE_KEY_FOREGROUND_COLOR <;> cases push MESSAGE_KEY_SECONDARY_COLOR <;>
    simp [Main.save_settings, persist_write_int, persist_write_bool]

open PersistKey in
/-- C10 (as amended): for every configuration push, each of the four fields
present in the push is overwritten with the pushed value (flag `value == 1`,
colour `GColorFromHEX(value)`), each absent field and the step variables keep
their value, and afterwards storage holds the current value of all four
fields and of the goal.  A push containing only the 24h flag sets
`s_use_24h` to `value == 1` (false for 0), leaves the three colours as they
were and stores their unchanged values: the stored value of a colour is as
before exactly when storage already held that colour, and a colour key absent
before the push is present after it. -/
theorem inbox_received_frame (sdk : Sdk) (push : Dictionary) (s : Main.State) (v : Int) :
    ((Main.inbox_received_callback sdk push s).s_use_24h =
        (match push MESSAGE_KEY_USE_24_HOUR with
          | some v => decide (v = 1)
          | none => s.s_use_24h) ∧
      (Main.inbox_received_callback sdk push s).s_background_color =
        (match push MESSAGE_KEY_BACKGROUND_COLOR with
          | some v => sdk.GColorFromHEX v
          | none => s.s_background_color) ∧
      (Main.inbox_received_callback sdk push s).s_foreground_color =
        (match push MESSAGE_KEY_FOREGROUND_COLOR with
          | some v => sdk.GColorFromHEX v
          | none => s.s_foreground_color) ∧
      (Main.inbox_received_callback sdk push s).s_secondary_color =
        (match push MESSAGE_KEY_SECONDARY_COLOR with
          | some v => sdk.GColorFromHEX v
          | none => s.s_secondary_color) ∧
      (Main.inbox_received_callback sdk push s).s_max_steps = s.s_max_steps ∧
      (Main.inbox_received_callback sdk push s).s_current_steps = s.s_current_steps ∧
      (Main.inbox_received_callback sdk push s).s_battery_level = s.s_battery_level) ∧
    ((Main.inbox_received_callback sdk push s).storage MESSAGE_KEY_USE_24_HOUR
        = some (PersistValue.bool (Main.inbox_received_callback sdk push s).s_use_24h) ∧
      (Main.inbox_received_callback sdk push s).storage MESSAGE_KEY_BACKGROUND_COLOR
        = some (PersistValue.int
            (Main.inbox_received_callback sdk push s).s_background_color.argb) ∧
      (Main.inbox_received_callback sdk push s).storage MESSAGE_KEY_FOREGROUND_COLOR
        = some (PersistValue.int
            (Main.inbox_received_callback sdk push s).s_foreground_color.argb) ∧
      (Main.inbox_received_callback sdk push s).storage MESSAGE_KEY_SECONDARY_COLOR
        = some (PersistValue.int
            (Main.inbox_received_callback sdk push s).s_secondary_color.argb) ∧
      (Main.inbox_received_callback sdk push s).storage MESSAGE_KEY_STEP_GOAL
        = some (PersistValue.int s.s_max_steps)) ∧
    ((Main.inbox_received_callback sdk (flagOnly v) s).s_use_24h = decide (v = 1) ∧
      (Main.inbox_received_callback sdk (flagOnly 0) s).s_use_24h = false ∧
      (Main.inbox_received_callback sdk (flagOnly v) s).s_background_color
        = s.s_background_color ∧
      (Main.inbox_received_callback sdk (flagOnly v) s).s_foreground_color
        = s.s_foreground_color ∧
      (Main.inbox_received_callback sdk (flagOnly v) s).s_secondary_color
        = s.s_secondary_color ∧
      (Main.inbox_received_callback sdk (flagOnly v) s).storage MESSAGE_KEY_BACKGROUND_COLOR
        = some (PersistValue.int s.s_background_color.argb) ∧
      (Main.inbox_received_callback sdk (flagOnly v) s).storage MESSAGE_KEY_FOREGROUND_COLOR
        = some (PersistValue.int s.s_foreground_color.argb) ∧
      (Main.inbox_received_callback sdk (flagOnly v) s).storage MESSAGE_KEY_SECONDARY_COLOR
        = some (PersistValue.int s.s_secondary_color.argb) ∧
      ((Main.inbox_received_callback sdk (flagOnly v) s).storage MESSAGE_KEY_BACKGROUND_COLOR
          = s.storage MESSAGE_KEY_BACKGROUND_COLOR ↔
        s.storage MESSAGE_KEY_BACKGROUND_COLOR
          = some (PersistValue.int s.s_background_color.argb)) ∧
      ((Main.inbox_received_callback sdk (flagOnly v) s).storage MESSAGE_KEY_FOREGROUND_COLOR
          = s.storage MESSAGE_KEY_FOREGROUND_COLOR ↔
        s.storage MESSAGE_KEY_FOREGROUND_COLOR
          = some (PersistValue.int s.s_foreground_color.argb)) ∧
      ((Main.inbox_received_callback sdk (flagOnly v) s).storage MESSAGE_KEY_SECONDARY_COLOR
          = s.storage MESSAGE_KEY_SECONDARY_COLOR ↔
        s.storage MESSAGE_KEY_SECONDARY_COLOR
          = some (PersistValue.int s.s_secondary_color.argb))) := by
  have hv := inbox_variables sdk (flagOnly v) s
  have h0 := inbox_variables sdk (flagOnly 0) s
  have hst := inbox_storage sdk (flagOnly v) s
  have e1 : flagOnly v MESSAGE_KEY_USE_24_HOUR = some v := by simp [flagOnly]
  have e0 : flagOnly 0 MESSAGE_KEY_USE_24_HOUR = some 0 := by simp [flagOnly]
  have e2 : flagOnly v MESSAGE_KEY_BACKGROUND_COLOR = none := by simp [flagOnly]
  have e3 : flagOnly v MESSAGE_KEY_FOREGROUND_COLOR = none := by simp [flagOnly]
  have e4 : flagOnly v MESSAGE_KEY_SECONDARY_COLOR = none := by simp [flagOnly]
  rw [e1, e2, e3, e4] at hv
  rw [e0] at h0
  obtain ⟨hv1, hv2, hv3, hv4, -⟩ := hv
  obtain ⟨hs1, hs2, hs3, hs4, -⟩ := hst
  rw [hv2] at hs2
  rw [hv3] at hs3
  rw [hv4] at hs4
  refine ⟨inbox_variables sdk push s, ?_, hv1, ?_, hv2, hv3, hv4, hs2, hs3, hs4, ?_, ?_, ?_⟩
  · obtain ⟨a, b, c, d, e, -⟩ := inbox_storage sdk push s
    exact ⟨a, b, c, d, e⟩
  · rw [h0.1]
    rfl
  · rw [hs2]
    exact eq_comm
  · rw [hs3]
    exact eq_comm
  · rw [hs4]
    exact eq_comm

open PersistKey in
/-- C10, as stated, fails on a fresh installation: after `load_settings` on
an empty store no colour is stored, and a push that contains only the 24h flag
(set to false) makes `save_settings` store all three colours, so their stored
values are not as before. -/
theorem flag_only_push_stores_colors :
    (Main.load_settings sampleSdk (Main.initial emptyStorage)).storage
        MESSAGE_KEY_BACKGROUND_COLOR = none ∧
    (Main.inbox_received_callback sampleSdk (flagOnly 0)
        (Main.load_settings sampleSdk (Main.initial emptyStorage))).storage
        MESSAGE_KEY_BACKGROUND_COLOR = some (PersistValue.int 192) ∧
    ¬ (∀ k : PersistKey,
        k = MESSAGE_KEY_BACKGROUND_COLOR ∨ k = MESSAGE_KEY_FOREGROUND_COLOR ∨
          k = MESSAGE_KEY_SECONDARY_COLOR →
        (Main.inbox_received_callback sampleSdk (flagOnly 0)
          (Main.load_settings sampleSdk (Main.initial emptyStorage))).storage k =
        (Main.load_settings sampleSdk (Main.initial emptyStorage)).storage k) := by
  have h1 : (Main.load_settings sampleSdk (Main.initial emptyStorage)).storage
      MESSAGE_KEY_BACKGROUND_COLOR = none := by decide
  have h2 : (Main.inbox_received_callback sampleSdk (flagOnly 0)
      (Main.load_settings sampleSdk (Main.initial emptyStorage))).storage
      MESSAGE_KEY_BACKGROUND_COLOR = some (PersistValue.int 192) := by decide
  refine ⟨h1, h2, ?_⟩
  intro h
  have h3 := h MESSAGE_KEY_BACKGROUND_COLOR (Or.inl rfl)
  rw [h1, h2] at h3
  exact absurd h3 (by decide)

/-! ## Date text: the weekday loop -/

theorem upperByte_lower (b : Nat) (h0 : 97 ≤ b) (h1 : b ≤ 122) : upperByte b = b - 32 := by
  interval_cases b <;> rfl

theorem upperByte_upper (b : Nat) (h0 : 65 ≤ b) (h1 : b ≤ 90) : upperByte b = b := by
  interval_cases b <;> rfl

theorem upperByte_letter (b : Nat) (h : asciiLetter b) :
    65 ≤ upperByte b ∧ upperByte b ≤ 90 := by
  rcases h with ⟨h0, h1⟩ | ⟨h0, h1⟩
  · rw [upperByte_upper b h0 h1]
    exact ⟨h0, h1⟩
  · rw [upperByte_lower b h0 h1]
    omega

theorem upcase_weekday_stop (buf : CBuf) : upcase_weekday buf 6 = buf := by
  rw [upcase_weekday, if_neg (by omega)]

theorem upcase_step3 (c0 c1 c2 l : Nat) (t : List Nat) (h : asciiLetter l) :
    upcase_weekday (c0 :: c1 :: c2 :: l :: t) 3 =
      upcase_weekday (c0 :: c1 :: c2 :: upperByte l :: t) 4 := by
  rw [upcase_weekday]
  have hg : (c0 :: c1 :: c2 :: l :: t).getD 3 0 = l := rfl
  rw [hg]
  rcases h with ⟨a, b⟩ | ⟨a, b⟩
  · rw [if_pos ⟨by norm_num, by omega⟩, if_neg (by omega), upperByte_upper l a b]
  · rw [if_pos ⟨by norm_num, by omega⟩, if_pos ⟨a, b⟩, upperByte_lower l a b]
    rfl

theorem upcase_step4 (c0 c1 c2 c3 l : Nat) (t : List Nat) (h : asciiLetter l) :
    upcase_weekday (c0 :: c1 :: c2 :: c3 :: l :: t) 4 =
      upcase_weekday (c0 :: c1 :: c2 :: c3 :: upperByte l :: t) 5 := by
  rw [upcase_weekday]
  have hg : (c0 :: c1 :: c2 :: c3 :: l :: t).getD 4 0 = l := rfl
  rw [hg]
  rcases h with ⟨a, b⟩ | ⟨a, b⟩
  · rw [if_pos ⟨by norm_num, by omega⟩, if_neg (by omega), upperByte_upper l a b]
  · rw [if_pos ⟨by norm_num, by omega⟩, if_pos ⟨a, b⟩, upperByte_lower l a b]
    rfl

theorem upcase_step5 (c0 c1 c2 c3 c4 l : Nat) (t : List Nat) (h : asciiLetter l) :
    upcase_weekday (c0 :: c1 :: c2 :: c3 :: c4 :: l :: t) 5 =
      c0 :: c1 :: c2 :: c3 :: c4 :: upperByte l :: t := by
  rw [upcase_weekday]
  have hg : (c0 :: c1 :: c2 :: c3 :: c4 :: l :: t).getD 5 0 = l := rfl
  rw [hg]
  simp only [Nat.reduceAdd, upcase_weekday_stop]
  rcases h with ⟨a, b⟩ | ⟨a, b⟩
  · rw [if_pos ⟨by norm_num, by omega⟩, if_neg (by omega), upperByte_upper l a b]
  · rw [if_pos ⟨by norm_num, by omega⟩, if_pos ⟨a, b⟩, upperByte_lower l a b]
    rfl

/-- One pass of the weekday loop over a buffer whose bytes 3..5 are ASCII
letters. -/
theorem upcase_weekday_letters (c0 c1 c2 l1 l2 l3 : Nat) (rest : List Nat)
    (h1 : asciiLetter l1) (h2 : asciiLetter l2) (h3 : asciiLetter l3) :
    upcase_weekday (c0 :: c1 :: c2 :: l1 :: l2 :: l3 :: rest) 3 =
      c0 :: c1 :: c2 :: upperByte l1 :: upperByte l2 :: upperByte l3 :: rest := by
  rw [upcase_step3 _ _ _ _ _ h1, upcase_step4 _ _ _ _ _ _ h2, upcase_step5 _ _ _ _ _ _ _ h3]

theorem upperByte_idem (b : Nat) (h : asciiLetter b) :
    asciiLetter (upperByte b) ∧ upperByte (upperByte b) = upperByte b := by
  have hu := upperByte_letter b h
  exact ⟨Or.inl hu, upperByte_upper _ hu.1 hu.2⟩

theorem date_format_text (abday : Nat → List Nat) (tm : Tm) (l1 l2 l3 : Nat)
    (ha : abday tm.tm_wday = [l1, l2, l3]) (buf : CBuf) :
    strftime abday buf 16 [Conv.d, Conv.lit 32, Conv.a] tm =
      (48 + tm.tm_mday / 10 % 10) :: (48 + tm.tm_mday % 10) :: 32 :: l1 :: l2 :: l3 :: 0 ::
        buf.drop 7 := by
  simp [strftime, format_text, conv_text, two_digits, ha]

/-- C14: the weekday loop of `update_time` turns a date text made of three
leading characters (the two-digit day and a space), a three-letter ASCII
weekday abbreviation in any mix of cases and the terminator into the same text
with the letters at indices 3..5 replaced by their upper-case forms; the
leading characters, the terminator and the bytes after it are unchanged, and a
second pass of the loop changes nothing.  So in both variants the date buffer
after `update_time` holds the day, a space and the upper-cased abbreviation
whenever the locale gives a three-letter ASCII abbreviation. -/
theorem weekday_upper_case (c0 c1 c2 l1 l2 l3 : Nat) (rest : List Nat)
    (h1 : asciiLetter l1) (h2 : asciiLetter l2) (h3 : asciiLetter l3) :
    upcase_weekday (c0 :: c1 :: c2 :: l1 :: l2 :: l3 :: 0 :: rest) 3 =
      c0 :: c1 :: c2 :: upperByte l1 :: upperByte l2 :: upperByte l3 :: 0 :: rest ∧
    upcase_weekday (upcase_weekday (c0 :: c1 :: c2 :: l1 :: l2 :: l3 :: 0 :: rest) 3) 3 =
      upcase_weekday (c0 :: c1 :: c2 :: l1 :: l2 :: l3 :: 0 :: rest) 3 ∧
    (∀ (abday : Nat → List Nat) (tm : Tm) (s : Main.State),
      abday tm.tm_wday = [l1, l2, l3] →
      (Main.update_time abday tm s).s_date_buffer =
        two_digits tm.tm_mday ++ 32 :: upperByte l1 :: upperByte l2 :: upperByte l3 :: 0 ::
          s.s_date_buffer.drop 7) ∧
    (∀ (abday : Nat → List Nat) (clock_24h : Bool) (tm : Tm) (s : NewWatchface.State),
      abday tm.tm_wday = [l1, l2, l3] →
      (NewWatchface.update_time abday clock_24h tm s).s_date_buffer =
        two_digits tm.tm_mday ++ 32 :: upperByte l1 :: upperByte l2 :: upperByte l3 :: 0 ::
          s.s_date_buffer.drop 7) := by
  have hpass := upcase_weekday_letters c0 c1 c2 l1 l2 l3 (0 :: rest) h1 h2 h3
  have i1 := upperByte_idem l1 h1
  have i2 := upperByte_idem l2 h2
  have i3 := upperByte_idem l3 h3
  refine ⟨hpass, ?_, ?_, ?_⟩
  · rw [hpass, upcase_weekday_letters _ _ _ _ _ _ _ i1.1 i2.1 i3.1, i1.2, i2.2, i3.2]
  · intro abday tm s ha
    show upcase_weekday (strftime abday s.s_date_buffer 16 [Conv.d, Conv.lit 32, Conv.a] tm) 3
      = _
    rw [date_format_text abday tm l1 l2 l3 ha, upcase_weekday_letters _ _ _ _ _ _ _ h1 h2 h3]
    rfl
  · intro abday clock_24h tm s ha
    show upcase_weekday (strftime abday s.s_date_buffer 16 [Conv.d, Conv.lit 32, Conv.a] tm) 3
      = _
    rw [date_format_text abday tm l1 l2 l3 ha, upcase_weekday_letters _ _ _ _ _ _ _ h1 h2 h3]
    rfl

theorem weekday_upper_case_witness :
    upcase_weekday (bytes "30 fRi" ++ 0 :: List.replicate 9 0) 3 =
      bytes "30 FRI" ++ 0 :: List.replicate 9 0 :=
  (weekday_upper_case 51 48 32 102 82 105 (List.replicate 9 0)
    (Or.inr ⟨by decide, by decide⟩) (Or.inl ⟨by decide, by decide⟩)
    (Or.inr ⟨by decide, by decide⟩)).1

/-! ## Hour text -/

theorem hour_format_text (abday : Nat → List Nat) (tm : Tm) (use_24h : Bool) (buf : CBuf) :
    strftime abday buf 4 (if use_24h then [Conv.H] else [Conv.I]) tm =
      (if use_24h then two_digits tm.tm_hour
        else two_digits (if tm.tm_hour % 12 = 0 then 12 else tm.tm_hour % 12))
        ++ 0 :: buf.drop 3 := by
  cases use_24h <;> simp [strftime, format_text, conv_text, two_digits]

/-- The hour buffer after `update_time` in 24-hour mode. -/
theorem main_hour_buffer_24h (abday : Nat → List Nat) (tm : Tm) (s : Main.State)
    (hs : s.s_use_24h = true) :
    (Main.update_time abday tm s).s_hour_buffer =
      (48 + tm.tm_hour / 10 % 10) :: (48 + tm.tm_hour % 10) :: 0 :: s.s_hour_buffer.drop 3 := by
  show (if s.s_use_24h = false ∧ _ then _ else _) = _
  rw [if_neg (by simp [hs]), hour_format_text, hs]
  rfl

/-- The hour buffer after `update_time` in 12-hour mode. -/
theorem main_hour_buffer_12h (abday : Nat → List Nat) (tm : Tm) (s : Main.State)
    (hs : s.s_use_24h = false) (hh : tm.tm_hour < 24) :
    (Main.update_time abday tm s).s_hour_buffer =
      (if (if tm.tm_hour % 12 = 0 then 12 else tm.tm_hour % 12) < 10
        then (48 + tm.tm_hour % 12) :: 0 :: 0 :: s.s_hour_buffer.drop 3
        else 49 :: (48 + (if tm.tm_hour % 12 = 0 then 12 else tm.tm_hour % 12) % 10) :: 0 ::
          s.s_hour_buffer.drop 3) := by
  show (if s.s_use_24h = false ∧ _ then _ else _) = _
  rw [hour_format_text, hs]
  obtain ⟨mi, h, md, wd⟩ := tm
  simp only at hh
  interval_cases h <;> simp [two_digits, memmove_tail, strlen, cstr]

theorem hour_numeral_bytes (h : Nat) (hh : h < 24) :
    bytes (toString (if h % 12 = 0 then 12 else h % 12)) =
      (if (if h % 12 = 0 then 12 else h % 12) < 10 then [48 + h % 12]
        else [49, 48 + (if h % 12 = 0 then 12 else h % 12) % 10]) := by
  interval_cases h <;> decide

/-- C11: `update_time` of `main.c`, for every hour 0..23 and from every prior
state: with `s_use_24h` false the hour text is the decimal numeral of the
12-hour value 1..12 without leading zero, so it does not begin with '0'; with
`s_use_24h` true the hour text is the two digits of the hour.  01:05 in 12h
mode gives "1" and 13:05 in 24h mode gives "13". -/
theorem hour_text_format (abday : Nat → List Nat) (tm : Tm) (s : Main.State)
    (hh : tm.tm_hour < 24) :
    (s.s_use_24h = false →
      cstr (Main.update_time abday tm s).s_hour_buffer =
        bytes (toString (if tm.tm_hour % 12 = 0 then 12 else tm.tm_hour % 12)) ∧
      (cstr (Main.update_time abday tm s).s_hour_buffer).head? ≠ some 48 ∧
      (Main.update_time abday tm s).s_hour_buffer.head? ≠ some 48) ∧
    (s.s_use_24h = true →
      cstr (Main.update_time abday tm s).s_hour_buffer = two_digits tm.tm_hour ∧
      (cstr (Main.update_time abday tm s).s_hour_buffer).length = 2 ∧
      (∀ b ∈ cstr (Main.update_time abday tm s).s_hour_buffer, 48 ≤ b ∧ b ≤ 57)) ∧
    cstr (Main.update_time sampleAbday tm0105 sampleMain12h).s_hour_buffer = bytes "1" ∧
    cstr (Main.update_time sampleAbday tm1305 (Main.initial emptyStorage)).s_hour_buffer
      = bytes "13" := by
  refine ⟨?_, ?_, by decide, by decide⟩
  · intro hs
    rw [main_hour_buffer_12h abday tm s hs hh, hour_numeral_bytes tm.tm_hour hh]
    obtain ⟨mi, h, md, wd⟩ := tm
    simp only at hh
    interval_cases h <;> simp [cstr]
  · intro hs
    rw [main_hour_buffer_24h abday tm s hs]
    have e : cstr ((48 + tm.tm_hour / 10 % 10) :: (48 + tm.tm_hour % 10) :: 0 ::
        s.s_hour_buffer.drop 3) = two_digits tm.tm_hour := by
      simp [cstr, two_digits, List.takeWhile]
    rw [e]
    refine ⟨rfl, rfl, ?_⟩
    intro b hb
    simp only [two_digits, List.mem_cons, List.mem_singleton, List.not_mem_nil, or_false] at hb
    rcases hb with rfl | rfl <;> omega

theorem hour_text_format_witness :
    cstr (Main.update_time sampleAbday tm0905 sampleMain12h).s_hour_buffer =
      bytes (toString (if tm0905.tm_hour % 12 = 0 then 12 else tm0905.tm_hour % 12)) :=
  ((hour_text_format sampleAbday tm0905 sampleMain12h (by decide)).1 (by decide)).1

theorem inbox_keeps_hour_buffer (sdk : Sdk) (push : Dictionary) (s : Main.State) :
    (Main.inbox_received_callback sdk push s).s_hour_buffer = s.s_hour_buffer ∧
    (Main.inbox_received_callback sdk push s).s_ampm_buffer = s.s_ampm_buffer := by
  unfold Main.inbox_received_callback Main.save_settings
  cases push PersistKey.MESSAGE_KEY_USE_24_HOUR <;>
    cases push PersistKey.MESSAGE_KEY_BACKGROUND_COLOR <;>
    cases push PersistKey.MESSAGE_KEY_FOREGROUND_COLOR <;>
    cases push PersistKey.MESSAGE_KEY_SECONDARY_COLOR <;>
    simp

/-- C12: the hour text of `main.c` can begin with '0' while `s_use_24h` is
false.  `update_time` establishes the property for every hour 0..23, and
the battery and step handlers keep flag and hour text, but
`inbox_received_callback` changes the flag and never reformats the hour text:
after start-up at 09:05 in 24h mode (the default) and a push that turns the
flag off, `s_use_24h` is false and the hour text is "09". -/
theorem hour_text_stale_after_push :
    (∀ (abday : Nat → List Nat) (tm : Tm) (s : Main.State),
      tm.tm_hour < 24 → s.s_use_24h = false →
      (Main.update_time abday tm s).s_use_24h = false ∧
      (Main.update_time abday tm s).s_hour_buffer.head? ≠ some 48) ∧
    (∀ (s : Main.State) (charge_percent : Int),
      (Main.battery_callback charge_percent s).s_use_24h = s.s_use_24h ∧
      (Main.battery_callback charge_percent s).s_hour_buffer = s.s_hour_buffer) ∧
    (∀ (s : Main.State) (sum_today : Int),
      (Main.update_steps s sum_today).s_use_24h = s.s_use_24h ∧
      (Main.update_steps s sum_today).s_hour_buffer = s.s_hour_buffer) ∧
    (∀ (sdk : Sdk) (push : Dictionary) (s : Main.State),
      (Main.inbox_received_callback sdk push s).s_hour_buffer = s.s_hour_buffer) ∧
    (Main.dispatch sampleSdk sampleAbday
        (Main.load_settings sampleSdk (Main.initial emptyStorage))
        [Main.Event.battery 45, Main.Event.tick tm0905, Main.Event.steps 5000,
         Main.Event.push (flagOnly 0)]).s_use_24h = false ∧
    cstr (Main.dispatch sampleSdk sampleAbday
        (Main.load_settings sampleSdk (Main.initial emptyStorage))
        [Main.Event.battery 45, Main.Event.tick tm0905, Main.Event.steps 5000,
         Main.Event.push (flagOnly 0)]).s_hour_buffer = bytes "09" ∧
    (Main.dispatch sampleSdk sampleAbday
        (Main.load_settings sampleSdk (Main.initial emptyStorage))
        [Main.Event.battery 45, Main.Event.tick tm0905, Main.Event.steps 5000,
         Main.Event.push (flagOnly 0)]).s_hour_buffer.head? = some 48 := by
  refine ⟨?_, ?_, ?_, ?_, by decide, by decide, by decide⟩
  · intro abday tm s hh hs
    refine ⟨hs, ?_⟩
    rw [main_hour_buffer_12h abday tm s hs hh]
    obtain ⟨mi, h, md, wd⟩ := tm
    simp only at hh
    interval_cases h <;> simp
  · intro s charge_percent
    exact ⟨rfl, rfl⟩
  · intro s sum_today
    unfold Main.update_steps
    dsimp only
    split_ifs <;> exact ⟨rfl, rfl⟩
  · intro sdk push s
    exact (inbox_keeps_hour_buffer sdk push s).1

/-! ## Meridiem text -/

/-- C13: the meridiem buffer after `update_time`, both variants.  In 12-hour
mode its text is "AM" for hours below 12 and "PM" from 12 on, from every
prior state (01:05 gives hour "1", minute "05", "AM").  In 24-hour mode the
buffer is not written: from a fresh start 13:05 gives hour "13", minute "05"
and an empty meridiem, but after an update in 12-hour mode at 01:05 the update
at 13:05 in 24-hour mode leaves the meridiem text "AM", in `new-watchface.c`
next to the time text "13:05" and in `main.c` after a push that turns the 24h
flag on. -/
theorem meridiem_text (abday : Nat → List Nat) (tm : Tm) (s : Main.State)
    (t : NewWatchface.State) :
    (s.s_use_24h = false →
      cstr (Main.update_time abday tm s).s_ampm_buffer =
        (if tm.tm_hour < 12 then bytes "AM" else bytes "PM")) ∧
    cstr (NewWatchface.update_time abday false tm t).s_ampm_buffer =
      (if tm.tm_hour < 12 then bytes "AM" else bytes "PM") ∧
    (s.s_use_24h = true → (Main.update_time abday tm s).s_ampm_buffer = s.s_ampm_buffer) ∧
    (NewWatchface.update_time abday true tm t).s_ampm_buffer = t.s_ampm_buffer ∧
    (cstr (Main.update_time sampleAbday tm0105 sampleMain12h).s_hour_buffer = bytes "1" ∧
      cstr (Main.update_time sampleAbday tm0105 sampleMain12h).s_minute_buffer = bytes "05" ∧
      cstr (Main.update_time sampleAbday tm0105 sampleMain12h).s_ampm_buffer = bytes "AM") ∧
    (cstr (Main.update_time sampleAbday tm1305 (Main.initial emptyStorage)).s_hour_buffer
        = bytes "13" ∧
      cstr (Main.update_time sampleAbday tm1305 (Main.initial emptyStorage)).s_minute_buffer
        = bytes "05" ∧
      cstr (Main.update_time sampleAbday tm1305 (Main.initial emptyStorage)).s_ampm_buffer
        = []) ∧
    (cstr (NewWatchface.update_time sampleAbday true tm1305
        (NewWatchface.update_time sampleAbday false tm0105
          (NewWatchface.initial emptyStorage))).s_time_buffer = bytes "13:05" ∧
      cstr (NewWatchface.update_time sampleAbday true tm1305
        (NewWatchface.update_time sampleAbday false tm0105
          (NewWatchface.initial emptyStorage))).s_ampm_buffer = bytes "AM") ∧
    ((Main.dispatch sampleSdk sampleAbday (Main.initial emptyStorage)
        [Main.Event.push (flagOnly 0), Main.Event.tick tm0105,
         Main.Event.push (flagOnly 1), Main.Event.tick tm1305]).s_use_24h = true ∧
      cstr (Main.dispatch sampleSdk sampleAbday (Main.initial emptyStorage)
        [Main.Event.push (flagOnly 0), Main.Event.tick tm0105,
         Main.Event.push (flagOnly 1), Main.Event.tick tm1305]).s_hour_buffer = bytes "13" ∧
      cstr (Main.dispatch sampleSdk sampleAbday (Main.initial emptyStorage)
        [Main.Event.push (flagOnly 0), Main.Event.tick tm0105,
         Main.Event.push (flagOnly 1), Main.Event.tick tm1305]).s_ampm_buffer
        = bytes "AM") := by
  have hfmt : ∀ buf : CBuf, cstr (strftime abday buf 4 [Conv.p] tm) =
      (if tm.tm_hour < 12 then bytes "AM" else bytes "PM") := by
    intro buf
    have ham : bytes "AM" = [65, 77] := by decide
    have hpm : bytes "PM" = [80, 77] := by decide
    rw [ham, hpm]
    by_cases h : tm.tm_hour < 12 <;> simp [strftime, format_text, conv_text, cstr, h]
  refine ⟨?_, ?_, ?_, ?_, ⟨by decide, by decide, by decide⟩,
    ⟨by decide, by decide, by decide⟩, ⟨by decide, by decide⟩,
    ⟨by decide, by decide, by decide⟩⟩
  · intro hs
    show cstr (if s.s_use_24h = false then _ else _) = _
    rw [if_pos hs]
    exact hfmt _
  · exact hfmt _
  · intro hs
    show (if s.s_use_24h = false then _ else _) = _
    rw [if_neg (by simp [hs])]
  · rfl

end DualArc
